import Mathlib

/-!
# Maybe and Either: monadic bind and the pipe operator

A shallow embedding of `include/Maybe.h` and `include/Either.h`, of the step
functions of the unit tests, of the payload type of `ExpensiveToCopy.cpp` with
the demonstration runs that use it, and of the action dispatch of `main`.

* `Maybe<T>` is `std::optional<T>`, `Either<T>` is `std::variant<T, Err>` with
  `Err = std::runtime_error`.
* A C++ callable may have side effects, so a step function is embedded in
  state-passing style (`Fn`): it maps its argument and the program state before
  the call to its result and the program state after the call.
* Step functions are total: a step reports failure by returning the absent or
  the failure state, never by raising.
* Invocations are observed the way a test would observe them: a step is
  wrapped so that every invocation leaves an entry in a call log
  (`counted`), and the log is read back after the operation.
-/

namespace MonadicTypes

/-! ## Callables and the call log -/

/-- A C++ callable from `T` to `R`, run in a program state of type `σ`: the
result of the call together with the state the call leaves behind. -/
abbrev Fn (σ T R : Type) : Type := T → σ → R × σ

/-- A side-effect free callable: the state is handed back untouched. -/
def pureFn {σ T R : Type} (g : T → R) : Fn σ T R := fun v s => (g v, s)

/-- Program state extended with a call log: the identifiers of the instrumented
callables, oldest invocation first. -/
structure Probe (σ : Type) where
  state : σ
  calls : List Nat
deriving DecidableEq, Repr

/-- Instrumented callable: runs `f` on the underlying state and appends the
identifier `i` to the call log, once per invocation. -/
def counted {σ T R : Type} (i : Nat) (f : Fn σ T R) : Fn (Probe σ) T R :=
  fun v w => ((f v w.state).1, { state := (f v w.state).2, calls := w.calls ++ [i] })

/-- Number of invocations of the callable instrumented as `i` recorded so far. -/
def invocations {σ : Type} (i : Nat) (w : Probe σ) : Nat := w.calls.count i

/-! ## Conditions signalled by the standard containers -/

/-- The exceptions thrown by wrong-state access to `std::optional` and
`std::variant`. -/
inductive Exception where
  | bad_optional_access
  | bad_variant_access
deriving DecidableEq, Repr

/-! ## Maybe (`Maybe.h`) -/

/-- The alias `template <typename T> using Maybe = std::optional<T>;`. -/
abbrev Maybe (T : Type) : Type := Option T

namespace Maybe

/-- Construction of a `Maybe<T>` from a value of `T`. -/
def of {T : Type} (v : T) : Maybe T := some v

/-- Construction of a `Maybe<T>` from `std::nullopt` (also `return {}`). -/
def nullopt {T : Type} : Maybe T := none

/-- Modelled from the spec: `std::optional<T>::has_value` / `operator bool`,
the presence test of section 4.1 (the standard library is not part of the
sources). -/
def has_value {T : Type} : Maybe T → Bool
  | some _ => true
  | none => false

/-- Modelled from the spec: `std::optional<T>::value`, the checked extraction
of section 4.1, which signals `std::bad_optional_access` on an empty container
(the standard library is not part of the sources; the tests expect exactly this
exception). -/
def value {T : Type} : Maybe T → Except Exception T
  | some v => .ok v
  | none => .error .bad_optional_access

/-- Function `mbind(const Maybe<T>& mb, F f) -> Maybe<R>` of `Maybe.h`:
`if (mb) return std::invoke(f, mb.value()); else return {};`.
The `some v` branch is the branch `if (mb)` with `mb.value()` being `v`. -/
def mbind {σ T R : Type} (mb : Maybe T) (f : Fn σ T (Maybe R)) (s : σ) : Maybe R × σ :=
  match mb with
  | some v => f v s
  | none => (none, s)

/-- Operator `operator|(Maybe<T>&& e, F&& f)` of `Maybe.h`:
`return mbind<T, F>(std::forward<Maybe<T>>(e), std::forward<F>(f));`. -/
def pipe {σ T R : Type} (e : Maybe T) (f : Fn σ T (Maybe R)) (s : σ) : Maybe R × σ :=
  mbind e f s

/-- The expression `c | f1 | f2 | f3`: `operator|` associates to the left, so
the stages run in order, each on the result and the state left by the previous
one. -/
def pipe3 {σ T A B C : Type} (c : Maybe T) (f1 : Fn σ T (Maybe A)) (f2 : Fn σ A (Maybe B))
    (f3 : Fn σ B (Maybe C)) (s : σ) : Maybe C × σ :=
  let r1 := pipe c f1 s
  let r2 := pipe r1.1 f2 r1.2
  pipe r2.1 f3 r2.2

/-- The expression `c | f1 | f2`, as in `negative | multiplyOne | squareRoot`. -/
def pipe2 {σ T A B : Type} (c : Maybe T) (f1 : Fn σ T (Maybe A)) (f2 : Fn σ A (Maybe B))
    (s : σ) : Maybe B × σ :=
  let r1 := pipe c f1 s
  pipe r1.1 f2 r1.2

end Maybe

/-! ## Either (`Either.h`) -/

/-- The alias `using Err = std::runtime_error;`: an error record is its message, the
string returned by `what()`. -/
structure Err where
  what : String
deriving DecidableEq, Repr

/-- The alias `template <typename T> using Either = std::variant<T, Err>;`: alternative 0
is the successful value (right), alternative 1 the error record (left). -/
inductive Either (T : Type) where
  | right (v : T)
  | left (err : Err)
deriving DecidableEq, Repr

/-- A visitor over `Either<T>`: a function object with one call operator per
alternative. -/
structure Visitor (T R : Type) where
  onValue : T → R
  onErr : Err → R

/-- Function `std::visit(vis, e)`: applies the call operator of the held alternative. -/
def visit {T R : Type} (vis : Visitor T R) : Either T → R
  | .right v => vis.onValue v
  | .left err => vis.onErr err

/-- Functor `struct IsRight`: `true` on a `const T&`, `false` on a `const Err&`. -/
def IsRight {T : Type} : Visitor T Bool :=
  { onValue := fun _ => true, onErr := fun _ => false }

/-- Functor `struct IsLeft`: `false` on a `const T&`, `true` on a `const Err&`. -/
def IsLeft {T : Type} : Visitor T Bool :=
  { onValue := fun _ => false, onErr := fun _ => true }

namespace Either

/-- Construction of an `Either<T>` from a value of `T`. -/
def ofValue {T : Type} (v : T) : Either T := .right v

/-- Construction of an `Either<T>` from an error record. -/
def ofErr {T : Type} (e : Err) : Either T := .left e

/-- Modelled from the spec: `std::get<T>(e)`, extraction of the success
channel of section 4.2, which signals `std::bad_variant_access` when the error
alternative is held (the standard library is not part of the sources). -/
def getValue {T : Type} : Either T → Except Exception T
  | .right v => .ok v
  | .left _ => .error .bad_variant_access

/-- Modelled from the spec: `std::get<Err>(e)`, extraction of the error channel
of section 4.2, which signals `std::bad_variant_access` when the success
alternative is held (the standard library is not part of the sources). -/
def getErr {T : Type} : Either T → Except Exception Err
  | .left err => .ok err
  | .right _ => .error .bad_variant_access

/-- Function `mbind(const Either<T>& e, F f) -> Either<R>` of `Either.h`:
`if (std::visit(IsLeft<T>(), e)) return Either<R>(std::get<Err>(e));`
`return std::invoke(f, std::get<T>(e));`.
The `left err` branch is the branch where the visit of `IsLeft` is true, with
`std::get<Err>(e)` being `err`; in the `right v` branch `std::get<T>(e)` is `v`. -/
def mbind {σ T R : Type} (e : Either T) (f : Fn σ T (Either R)) (s : σ) : Either R × σ :=
  match e with
  | .left err => (.left err, s)
  | .right v => f v s

/-- Operator `operator|(Either<T>&& e, F&& f)` of `Either.h`:
`return mbind<T, F>(std::forward<Either<T>>(e), std::forward<F>(f));`. -/
def pipe {σ T R : Type} (e : Either T) (f : Fn σ T (Either R)) (s : σ) : Either R × σ :=
  mbind e f s

/-- The expression `e | f1 | f2 | f3`, the stages run from left to right. -/
def pipe3 {σ T A B C : Type} (e : Either T) (f1 : Fn σ T (Either A)) (f2 : Fn σ A (Either B))
    (f3 : Fn σ B (Either C)) (s : σ) : Either C × σ :=
  let r1 := pipe e f1 s
  let r2 := pipe r1.1 f2 r1.2
  pipe r2.1 f3 r2.2

/-- The expression `e | f1 | f2`, as in `negative | multiplyOne | squareRoot`. -/
def pipe2 {σ T A B : Type} (e : Either T) (f1 : Fn σ T (Either A)) (f2 : Fn σ A (Either B))
    (s : σ) : Either B × σ :=
  let r1 := pipe e f1 s
  pipe r1.1 f2 r1.2

end Either

/-! ## Error markers and the kind of a stored record

The marker classes derive from `Err` and pass a fixed message to its
constructor. `Either<T>` holds its error alternative by value, as an object of
type `Err`. -/

/-- The classes of the error hierarchy: `Err` (`std::runtime_error`) itself and
the marker classes derived from it in `TestEither.cpp` and `ExpensiveToCopy.h`. -/
inductive ErrClass where
  | runtime_error
  | InvalidInitErr
  | DivisionByZeroErr
  | SqrtNegativeErr
  | FailedToCreate
deriving DecidableEq, Repr

/-- A complete object of a class of the error hierarchy: its dynamic type and
the message kept by its `std::runtime_error` base. -/
structure ErrObject where
  dynamicType : ErrClass
  what : String
deriving DecidableEq, Repr

/-- The named marker classes, each `class M : public Err` with the one
constructor `explicit M() : Err{"..."}`. -/
inductive Marker where
  | InvalidInitErr
  | DivisionByZeroErr
  | SqrtNegativeErr
  | FailedToCreate
deriving DecidableEq, Repr

namespace Marker

/-- The class of a marker. -/
def cls : Marker → ErrClass
  | InvalidInitErr => .InvalidInitErr
  | DivisionByZeroErr => .DivisionByZeroErr
  | SqrtNegativeErr => .SqrtNegativeErr
  | FailedToCreate => .FailedToCreate

/-- The fixed message a marker passes to the constructor of `Err`. -/
def message : Marker → String
  | InvalidInitErr => "Invalid initialization"
  | DivisionByZeroErr => "Division by zero"
  | SqrtNegativeErr => "Trying to square root negative integer"
  | FailedToCreate => "Failed to create 'ExpensiveToCopy'"

/-- The temporary `M{}`: an object of dynamic type `M` with the fixed message. -/
def construct (m : Marker) : ErrObject := { dynamicType := m.cls, what := m.message }

end Marker

/-- Initialisation of an `Err` from an object of `Err` or of a class derived
from it: the copy or move constructor of `std::runtime_error` takes over the
message of the base subobject. -/
def ErrObject.toErr (o : ErrObject) : Err := { what := o.what }

/-- The complete object behind a value of type `Err`: an object held by value
as an `Err` has `Err` as its dynamic type. -/
def Err.asObject (e : Err) : ErrObject := { dynamicType := .runtime_error, what := e.what }

/-- Construction of an `Either<T>` from an object of the error hierarchy, as in
`Either<int> invalid{InvalidInitErr{}}` and `return DivisionByZeroErr{};`: the
`Err` alternative is initialised from the object. -/
def Either.ofObject {T : Type} (o : ErrObject) : Either T := .left o.toErr

/-- The kind (dynamic type) of the error record held by an `Either`, if it
holds one. -/
def Either.kind {T : Type} : Either T → Option ErrClass
  | .left err => some err.asObject.dynamicType
  | .right _ => none

/-! ## Step functions and fixtures of the unit tests

`int` is embedded as `Int`; `1 * a` and `42 % a` cannot overflow for any `int`
argument, and `%` is the truncating remainder `Int.tmod`. -/

/-- The `float` operations used by `squareRoot`, which come from the language
and its standard library and are therefore parameters: the conversion
`static_cast<float>(a)` and `std::sqrt`. -/
structure FloatOps (F : Type) where
  ofInt : Int → F
  sqrt : F → F

namespace MaybeTest

/-- Step `multiplyOne` of `TestMaybe.cpp`: `return 1 * a;`. -/
def multiplyOne (a : Int) : Maybe Int := Maybe.of (1 * a)

/-- Step `modulo` of `TestMaybe.cpp`: `if (0 == a) return {}; return 42 % a;`. -/
def modulo (a : Int) : Maybe Int :=
  if 0 = a then Maybe.nullopt else Maybe.of (Int.tmod 42 a)

/-- Step `squareRoot` of `TestMaybe.cpp`:
`if (0 > a) return {}; return std::sqrt(static_cast<float>(a));`. -/
def squareRoot {F : Type} (ops : FloatOps F) (a : Int) : Maybe F :=
  if 0 > a then Maybe.nullopt else Maybe.of (ops.sqrt (ops.ofInt a))

end MaybeTest

namespace EitherTest

/-- The marker `InvalidInitErr{}` stored in an `Either`: an `Err` with the fixed message. -/
def InvalidInitErr : Err := { what := "Invalid initialization" }

/-- The marker `DivisionByZeroErr{}` stored in an `Either`. -/
def DivisionByZeroErr : Err := { what := "Division by zero" }

/-- The marker `SqrtNegativeErr{}` stored in an `Either`. -/
def SqrtNegativeErr : Err := { what := "Trying to square root negative integer" }

/-- Step `multiplyOne` of `TestEither.cpp`: `return 1 * a;`. -/
def multiplyOne (a : Int) : Either Int := Either.ofValue (1 * a)

/-- Step `modulo` of `TestEither.cpp`:
`if (0 == a) return DivisionByZeroErr{}; return 42 % a;`. -/
def modulo (a : Int) : Either Int :=
  if 0 = a then Either.ofErr DivisionByZeroErr else Either.ofValue (Int.tmod 42 a)

/-- Step `squareRoot` of `TestEither.cpp`:
`if (0 > a) return SqrtNegativeErr{}; return std::sqrt(static_cast<float>(a));`. -/
def squareRoot {F : Type} (ops : FloatOps F) (a : Int) : Either F :=
  if 0 > a then Either.ofErr SqrtNegativeErr else Either.ofValue (ops.sqrt (ops.ofInt a))

/-- The chain of the test `PipeOperator` of `TestEither.cpp` on a container
holding `a`: `... | multiplyOne | modulo | squareRoot` (the results `r1`, `r2`
and `r3` for -42, 0 and 42). -/
def PipeOperator {σ F : Type} (ops : FloatOps F) (a : Int) (s : σ) : Either F × σ :=
  Either.pipe3 (Either.ofValue a) (pureFn multiplyOne) (pureFn modulo)
    (pureFn (squareRoot ops)) s

end EitherTest

/-! ## The expensive payload (`ExpensiveToCopy.h`, `ExpensiveToCopy.cpp`)

The special member functions of `ExpensiveToCopy` bump the static counter and
write one trace line each. The program state is the counter together with the
trace lines written so far. The `int` counter is embedded as a natural number:
it starts at 0 and is only ever incremented. Incrementing an `int` beyond
`INT_MAX` is undefined behaviour, so statements about a run assume that the
counter stays at or below `INT_MAX` throughout the run. -/

/-- The largest value of the 32-bit `int`. -/
def INT_MAX : Nat := 2147483647

/-- A trace line written by `ExpensiveToCopy.cpp`, with the instance identifier
printed between the square brackets: "Constructed", "Destroyed",
"Copy constructed", "Moved", "Copy assigned", "Move assigned", and the lines
"Transforming" and "Accumulating" of the step functions. -/
inductive Event where
  | constructed (id : Nat)
  | destroyed (id : Nat)
  | copyConstructed (id : Nat)
  | moved (id : Nat)
  | copyAssigned (id : Nat)
  | moveAssigned (id : Nat)
  | transforming (id : Nat)
  | accumulating (id : Nat)
deriving DecidableEq, Repr

/-- A copy event: a "Copy constructed" or a "Copy assigned" line. -/
def Event.isCopy : Event → Bool
  | .copyConstructed _ => true
  | .copyAssigned _ => true
  | _ => false

/-- Number of copy events in a trace. -/
def copyEvents (out : List Event) : Nat := out.countP Event.isCopy

/-- The program state seen by `ExpensiveToCopy`: the static member
`ExpensiveToCopy::count` and the trace written so far, oldest line first. -/
structure Program where
  count : Nat
  out : List Event
deriving DecidableEq, Repr

/-- The state at program start: `int ExpensiveToCopy::count = 0;`, nothing
written yet. -/
def Program.start : Program := { count := 0, out := [] }

/-- An instance of `struct ExpensiveToCopy`: its `id` and its `data`. -/
structure ExpensiveToCopy where
  id : Nat
  data : List Int
deriving DecidableEq, Repr

namespace ExpensiveToCopy

/-- The default member initializer `std::vector<int> data{1000, 0};`: brace
initialisation of a vector of `int` from two `int` values selects the
initializer-list constructor, giving the two elements 1000 and 0. -/
def defaultData : List Int := [1000, 0]

/-- The default constructor `ExpensiveToCopy::ExpensiveToCopy()`:
`count++; id = count;` and the line "Constructed". -/
def construct (s : Program) : ExpensiveToCopy × Program :=
  ({ id := s.count + 1, data := defaultData },
   { count := s.count + 1, out := s.out ++ [.constructed (s.count + 1)] })

/-- The move constructor `ExpensiveToCopy::ExpensiveToCopy(ExpensiveToCopy&& other)`:
`count++; id = count;` and the line "Moved"; `other` is not read, `data` gets
its default member initializer. -/
def moveConstruct (_other : ExpensiveToCopy) (s : Program) : ExpensiveToCopy × Program :=
  ({ id := s.count + 1, data := defaultData },
   { count := s.count + 1, out := s.out ++ [.moved (s.count + 1)] })

/-- The destructor `ExpensiveToCopy::~ExpensiveToCopy()`: the line "Destroyed". -/
def destroy (self : ExpensiveToCopy) (s : Program) : Program :=
  { count := s.count, out := s.out ++ [.destroyed self.id] }

/-- The loop `for (int i = 0; i < 1000; ++i) data[i] = v;` from index `i` on,
with `fuel` iterations left. The element access `data[i]` of a `std::vector` is
not checked: outside the bounds of the vector it is undefined behaviour, which
is reported as `none`. -/
def writeLoop (v : Int) : Nat → Nat → List Int → Option (List Int)
  | 0, _, d => some d
  | fuel + 1, i, d => if i < d.length then writeLoop v fuel (i + 1) (d.set i v) else none

/-- The copy constructor `ExpensiveToCopy::ExpensiveToCopy(const ExpensiveToCopy& other)`:
`for (int i = 0; i < 1000; ++i) this->data[i] = 1; count++; id = count;` and
the line "Copy constructed". There is no member initializer list, so `data`
starts from its default member initializer; `other` is not read. -/
def copyConstruct (_other : ExpensiveToCopy) (s : Program) :
    Option (ExpensiveToCopy × Program) :=
  match writeLoop 1 1000 0 defaultData with
  | some d =>
    some ({ id := s.count + 1, data := d },
      { count := s.count + 1, out := s.out ++ [.copyConstructed (s.count + 1)] })
  | none => none

/-- The copy assignment `ExpensiveToCopy::operator=(const ExpensiveToCopy&)`:
`for (int i = 0; i < 1000; ++i) data[i] = 2; count++; id = count;` and the line
"Copy assigned"; the loop writes into the `data` the object already has. -/
def copyAssign (self _other : ExpensiveToCopy) (s : Program) :
    Option (ExpensiveToCopy × Program) :=
  match writeLoop 2 1000 0 self.data with
  | some d =>
    some ({ id := s.count + 1, data := d },
      { count := s.count + 1, out := s.out ++ [.copyAssigned (s.count + 1)] })
  | none => none

/-- The move assignment `ExpensiveToCopy::operator=(ExpensiveToCopy&& other)`:
`count++; id = count;` and the line "Move assigned"; `data` is left as it is. -/
def moveAssign (self _other : ExpensiveToCopy) (s : Program) : ExpensiveToCopy × Program :=
  ({ id := s.count + 1, data := self.data },
   { count := s.count + 1, out := s.out ++ [.moveAssigned (s.count + 1)] })

end ExpensiveToCopy

/-- The identifier a trace line assigns to its instance: the lines of the
constructors and of the assignment operators each follow `id = count;`; the
other lines print the identifier of an existing instance. -/
def Event.assignedId : Event → Option Nat
  | .constructed i => some i
  | .copyConstructed i => some i
  | .moved i => some i
  | .copyAssigned i => some i
  | .moveAssigned i => some i
  | .destroyed _ => none
  | .transforming _ => none
  | .accumulating _ => none

/-- The identifiers assigned along a trace, oldest first. -/
def assignedIds (out : List Event) : List Nat := out.filterMap Event.assignedId

/-- One use of a special member function of `ExpensiveToCopy`, with the objects
it is applied to. -/
inductive Op where
  | construct
  | copyConstruct (other : ExpensiveToCopy)
  | moveConstruct (other : ExpensiveToCopy)
  | copyAssign (self other : ExpensiveToCopy)
  | moveAssign (self other : ExpensiveToCopy)
  | destroy (self : ExpensiveToCopy)
deriving DecidableEq, Repr

/-- The effect of one special member function on the program state; `none` when
the function runs into undefined behaviour. -/
def Op.exec : Op → Program → Option Program
  | .construct, s => some (ExpensiveToCopy.construct s).2
  | .copyConstruct other, s => (ExpensiveToCopy.copyConstruct other s).map Prod.snd
  | .moveConstruct other, s => some (ExpensiveToCopy.moveConstruct other s).2
  | .copyAssign self other, s => (ExpensiveToCopy.copyAssign self other s).map Prod.snd
  | .moveAssign self other, s => some (ExpensiveToCopy.moveAssign self other s).2
  | .destroy self, s => some (self.destroy s)

/-- A sequence of uses of the special member functions, run in order. -/
def runOps : List Op → Program → Option Program
  | [], s => some s
  | op :: rest, s => (op.exec s).bind (runOps rest)

/-- Destruction of a `Maybe<ExpensiveToCopy>`: the payload, if present, is
destroyed. -/
def destroy_maybe (c : Maybe ExpensiveToCopy) (s : Program) : Program :=
  match c with
  | some v => v.destroy s
  | none => s

/-- Destruction of an `Either<ExpensiveToCopy>`: the payload, if it is the held
alternative, is destroyed; the destructor of an `Err` writes nothing. -/
def destroy_either (c : Either ExpensiveToCopy) (s : Program) : Program :=
  match c with
  | .right v => v.destroy s
  | .left _ => s

/-- Function `create_expensive_m` of `ExpensiveToCopy.cpp`:
`if (success) return ExpensiveToCopy{}; else return std::nullopt;`.
The temporary `ExpensiveToCopy{}` is default-constructed, the payload of the
returned `Maybe` is initialised from that rvalue by the move constructor, and
the temporary is destroyed at the end of the return statement. -/
def create_expensive_m (success : Bool) (s : Program) : Maybe ExpensiveToCopy × Program :=
  if success then
    let tmp := ExpensiveToCopy.construct s
    let held := ExpensiveToCopy.moveConstruct tmp.1 tmp.2
    (Maybe.of held.1, tmp.1.destroy held.2)
  else
    (Maybe.nullopt, s)

/-- Function `create_expensive_e` of `ExpensiveToCopy.cpp`:
`if (success) return ExpensiveToCopy{}; else return FailedToCreate{};`,
with the same construction, move and destruction as `create_expensive_m`. -/
def create_expensive_e (success : Bool) (s : Program) : Either ExpensiveToCopy × Program :=
  if success then
    let tmp := ExpensiveToCopy.construct s
    let held := ExpensiveToCopy.moveConstruct tmp.1 tmp.2
    (Either.ofValue held.1, tmp.1.destroy held.2)
  else
    (Either.ofObject (Marker.construct .FailedToCreate), s)

/-- Function `accumulate_expensive_m(const ExpensiveToCopy& ec)`: writes the
line "Accumulating" with `ec.id` and returns 42. The argument is taken by
reference to const, so the call itself constructs no `ExpensiveToCopy`. -/
def accumulate_expensive_m : Fn Program ExpensiveToCopy (Maybe Int) :=
  fun ec s => (Maybe.of 42, { count := s.count, out := s.out ++ [.accumulating ec.id] })

/-- Function `accumulate_expensive_e(const ExpensiveToCopy& ec)`: writes the
line "Accumulating" with `ec.id` and returns 42. -/
def accumulate_expensive_e : Fn Program ExpensiveToCopy (Either Int) :=
  fun ec s => (Either.ofValue 42, { count := s.count, out := s.out ++ [.accumulating ec.id] })

/-- Function `transform_expensive_m(const ExpensiveToCopy& other)`: writes the
line "Transforming" with `other.id`, default-constructs the local `ec`, sets
every element of `ec.data` to 3 and returns `std::move(ec)`: the payload of the
returned `Maybe` is move-constructed from `ec`, then `ec` is destroyed. -/
def transform_expensive_m : Fn Program ExpensiveToCopy (Maybe ExpensiveToCopy) :=
  fun other s =>
    let s1 : Program := { count := s.count, out := s.out ++ [.transforming other.id] }
    let made := ExpensiveToCopy.construct s1
    let ec : ExpensiveToCopy := { id := made.1.id, data := made.1.data.map (fun _ => 3) }
    let held := ExpensiveToCopy.moveConstruct ec made.2
    (Maybe.of held.1, ec.destroy held.2)

/-- Function `transform_expensive_e(const ExpensiveToCopy& other)`: as
`transform_expensive_m`, the new instance being returned as a success. -/
def transform_expensive_e : Fn Program ExpensiveToCopy (Either ExpensiveToCopy) :=
  fun other s =>
    let s1 : Program := { count := s.count, out := s.out ++ [.transforming other.id] }
    let made := ExpensiveToCopy.construct s1
    let ec : ExpensiveToCopy := { id := made.1.id, data := made.1.data.map (fun _ => 3) }
    let held := ExpensiveToCopy.moveConstruct ec made.2
    (Either.ofValue held.1, ec.destroy held.2)

/-! ## The demonstration runs (`MaybeEitherDemoImplementation.cpp`) -/

namespace Demo

/-- The statements
`auto expensive_maybe = create_expensive_m(true);`
`auto result2 = mbind(expensive_maybe, accumulate_expensive_m);`:
the named container, still alive afterwards, and the result. -/
def result2 (s : Program) : (Maybe ExpensiveToCopy × Maybe Int) × Program :=
  let c := create_expensive_m true s
  let r := Maybe.mbind c.1 accumulate_expensive_m c.2
  ((c.1, r.1), r.2)

/-- The statement `auto result3 = create_expensive_m(true) | accumulate_expensive_m;`:
the temporary container is destroyed at the end of the statement. -/
def result3 (s : Program) : Maybe Int × Program :=
  let c := create_expensive_m true s
  let r := Maybe.pipe c.1 accumulate_expensive_m c.2
  (r.1, destroy_maybe c.1 r.2)

/-- The statements
`auto expensive_either = create_expensive_e(true);`
`auto result8 = mbind(expensive_either, accumulate_expensive_e);`. -/
def result8 (s : Program) : (Either ExpensiveToCopy × Either Int) × Program :=
  let c := create_expensive_e true s
  let r := Either.mbind c.1 accumulate_expensive_e c.2
  ((c.1, r.1), r.2)

/-- The statement `auto result9 = create_expensive_e(true) | accumulate_expensive_e;`:
the temporary container is destroyed at the end of the statement. -/
def result9 (s : Program) : Either Int × Program :=
  let c := create_expensive_e true s
  let r := Either.pipe c.1 accumulate_expensive_e c.2
  (r.1, destroy_either c.1 r.2)

/-- The statement
`auto result1 = mbind<...>(std::forward<...>(create_expensive_m(false)), accumulate_expensive_m);`:
the temporary container is destroyed at the end of the statement. -/
def result1 (s : Program) : Maybe Int × Program :=
  let c := create_expensive_m false s
  let r := Maybe.mbind c.1 accumulate_expensive_m c.2
  (r.1, destroy_maybe c.1 r.2)

/-- The statements
`auto expensive_maybe_pipe = create_expensive_m(true);`
`auto result4 = std::forward<...>(expensive_maybe_pipe) | accumulate_expensive_m;`:
the named container, still alive afterwards, and the result. -/
def result4 (s : Program) : (Maybe ExpensiveToCopy × Maybe Int) × Program :=
  let c := create_expensive_m true s
  let r := Maybe.pipe c.1 accumulate_expensive_m c.2
  ((c.1, r.1), r.2)

/-- The statement
`auto result5 = create_expensive_m(false) | transform_expensive_m | accumulate_expensive_m;`:
the two temporary containers are destroyed at the end of the statement, the
later one first. -/
def result5 (s : Program) : Maybe Int × Program :=
  let c := create_expensive_m false s
  let t := Maybe.pipe c.1 transform_expensive_m c.2
  let r := Maybe.pipe t.1 accumulate_expensive_m t.2
  (r.1, destroy_maybe c.1 (destroy_maybe t.1 r.2))

/-- The statement
`auto result6 = create_expensive_m(true) | transform_expensive_m | accumulate_expensive_m;`:
the two temporary containers are destroyed at the end of the statement, the
later one first. -/
def result6 (s : Program) : Maybe Int × Program :=
  let c := create_expensive_m true s
  let t := Maybe.pipe c.1 transform_expensive_m c.2
  let r := Maybe.pipe t.1 accumulate_expensive_m t.2
  (r.1, destroy_maybe c.1 (destroy_maybe t.1 r.2))

/-- The statement
`auto result7 = mbind<...>(std::forward<...>(create_expensive_e(false)), accumulate_expensive_e);`. -/
def result7 (s : Program) : Either Int × Program :=
  let c := create_expensive_e false s
  let r := Either.mbind c.1 accumulate_expensive_e c.2
  (r.1, destroy_either c.1 r.2)

/-- The statements
`auto expensive_either_pipe = create_expensive_e(true);`
`auto result10 = std::forward<...>(expensive_either_pipe) | accumulate_expensive_e;`. -/
def result10 (s : Program) : (Either ExpensiveToCopy × Either Int) × Program :=
  let c := create_expensive_e true s
  let r := Either.pipe c.1 accumulate_expensive_e c.2
  ((c.1, r.1), r.2)

/-- The statement
`auto result11 = create_expensive_e(false) | transform_expensive_e | accumulate_expensive_e;`. -/
def result11 (s : Program) : Either Int × Program :=
  let c := create_expensive_e false s
  let t := Either.pipe c.1 transform_expensive_e c.2
  let r := Either.pipe t.1 accumulate_expensive_e t.2
  (r.1, destroy_either c.1 (destroy_either t.1 r.2))

/-- The statement
`auto result12 = create_expensive_e(true) | transform_expensive_e | accumulate_expensive_e;`. -/
def result12 (s : Program) : Either Int × Program :=
  let c := create_expensive_e true s
  let t := Either.pipe c.1 transform_expensive_e c.2
  let r := Either.pipe t.1 accumulate_expensive_e t.2
  (r.1, destroy_either c.1 (destroy_either t.1 r.2))

end Demo

/-- The exit statuses returned by the strategies, the macros `EXIT_SUCCESS` and
`EXIT_FAILURE` of the standard library. -/
inductive ExitStatus where
  | EXIT_SUCCESS
  | EXIT_FAILURE
deriving DecidableEq, Repr

/-- The body of `MaybeEitherDemoImplementation::operator()`: the twelve
demonstration runs in order, then `return EXIT_SUCCESS;`, after which the named
containers are destroyed in reverse order of declaration. Only the trace lines
of `ExpensiveToCopy.cpp` are recorded. -/
def MaybeEitherDemoImplementation (s : Program) : ExitStatus × Program :=
  let r1 := Demo.result1 s
  let r2 := Demo.result2 r1.2
  let r3 := Demo.result3 r2.2
  let r4 := Demo.result4 r3.2
  let r5 := Demo.result5 r4.2
  let r6 := Demo.result6 r5.2
  let r7 := Demo.result7 r6.2
  let r8 := Demo.result8 r7.2
  let r9 := Demo.result9 r8.2
  let r10 := Demo.result10 r9.2
  let r11 := Demo.result11 r10.2
  let r12 := Demo.result12 r11.2
  (.EXIT_SUCCESS,
    destroy_maybe r2.1.1 (destroy_maybe r4.1.1
      (destroy_either r8.1.1 (destroy_either r10.1.1 r12.2))))

/-! ## Command line dispatch (`MaybeEitherDemo.h`, `MaybeEitherDemo.cpp`) -/

/-- The parsed option values, `struct CliOptionValues`. -/
structure CliOptionValues where
  m_Unsupported : List String
  m_ShowHelp : Bool
  m_PrintUsage : Bool
  m_ShowVersion : Bool
deriving DecidableEq, Repr

/-- The action classes `main` chooses from; the unsupported-options action is
built from the list of collected tokens. -/
inductive ProgramAction where
  | UnsupportedOptionsAction (unsupported : List String)
  | ShowHelpAction
  | ShowUsageAction
  | ShowVersionInfoAction
  | MainProgramAction
deriving DecidableEq, Repr

/-- The `if` / `else if` chain of `main` that assigns `programAction`. -/
def programAction (o : CliOptionValues) : ProgramAction :=
  if !o.m_Unsupported.isEmpty then .UnsupportedOptionsAction o.m_Unsupported
  else if o.m_ShowHelp then .ShowHelpAction
  else if o.m_PrintUsage then .ShowUsageAction
  else if o.m_ShowVersion then .ShowVersionInfoAction
  else .MainProgramAction

/-- The member `execute` of the action classes: each hands over to its
strategy. The strategy of the unsupported-options action returns
`EXIT_FAILURE`; those of the help, usage and version actions return
`EXIT_SUCCESS`; that of the main action is `MaybeEitherDemoImplementation`.
The text the strategies print is not recorded. -/
def ProgramAction.execute (a : ProgramAction) (s : Program) : ExitStatus × Program :=
  match a with
  | .UnsupportedOptionsAction _ => (.EXIT_FAILURE, s)
  | .ShowHelpAction => (.EXIT_SUCCESS, s)
  | .ShowUsageAction => (.EXIT_SUCCESS, s)
  | .ShowVersionInfoAction => (.EXIT_SUCCESS, s)
  | .MainProgramAction => MaybeEitherDemoImplementation s

/-- The classes of the action hierarchy of `include/ProgramActions`: the
abstract base `ProgramAction` and the five actions derived from it. -/
inductive ActionClass where
  | ProgramAction
  | UnsupportedOptionsAction
  | ShowHelpAction
  | ShowUsageAction
  | ShowVersionInfoAction
  | MainProgramAction
deriving DecidableEq, Repr

/-- The dynamic type of an action object: `main` creates each action with
`std::make_unique` of its own derived class. -/
def ProgramAction.dynamicType : ProgramAction → ActionClass
  | .UnsupportedOptionsAction _ => .UnsupportedOptionsAction
  | .ShowHelpAction => .ShowHelpAction
  | .ShowUsageAction => .ShowUsageAction
  | .ShowVersionInfoAction => .ShowVersionInfoAction
  | .MainProgramAction => .MainProgramAction

/-- Whether the destructor of the base class is virtual: `ProgramAction.h`
declares `~ProgramAction() = default;`, without `virtual`. -/
def ProgramAction.virtualDestructor : Bool := false

/-- Destruction of `std::unique_ptr<ProgramAction> programAction`: a `delete`
through a `ProgramAction*`. Deleting an object through a pointer to a base
class is defined only if the object is of that very class or the destructor of
the base class is virtual; otherwise it is undefined behaviour, which is
reported as `none`. -/
def ProgramAction.deleteThroughBase (a : ProgramAction) (s : Program) : Option Program :=
  if a.dynamicType = ActionClass.ProgramAction ∨ ProgramAction.virtualDestructor = true then
    some s
  else
    none

/-- Function `main` after the command line has been parsed into `o`:
`return programAction->execute(execName.c_str());`, starting from the state at
program start; once the value to return has been computed, the local
`programAction` is destroyed. The result is `none` when the run meets
undefined behaviour. -/
def main (o : CliOptionValues) : Option (ExitStatus × Program) :=
  let a := programAction o
  let r := a.execute Program.start
  (a.deleteThroughBase r.2).map (fun s => (r.1, s))

/-! ## Agreement of the embeddings with the source text

The two `mbind` bodies test the state first and then call the checked accessor.
The lemmas below show that the pattern matches above compute exactly that. -/

theorem maybe_mbind_as_written {σ T R : Type} (mb : Maybe T) (f : Fn σ T (Maybe R)) (s : σ) :
    (Except.ok (Maybe.mbind mb f s) : Except Exception (Maybe R × σ)) =
      if Maybe.has_value mb then (Maybe.value mb).map (fun v => f v s)
      else .ok (Maybe.nullopt, s) := by
  cases mb <;> rfl

theorem either_mbind_as_written {σ T R : Type} (e : Either T) (f : Fn σ T (Either R)) (s : σ) :
    (Except.ok (Either.mbind e f s) : Except Exception (Either R × σ)) =
      if visit IsLeft e then (Either.getErr e).map (fun err => (Either.ofErr err, s))
      else (Either.getValue e).map (fun v => f v s) := by
  cases e <;> rfl

/-! ## The instrumentation is transparent -/

theorem maybe_mbind_counted {σ T R : Type} (i : Nat) (mb : Maybe T) (f : Fn σ T (Maybe R))
    (w : Probe σ) :
    (Maybe.mbind mb (counted i f) w).1 = (Maybe.mbind mb f w.state).1 ∧
      (Maybe.mbind mb (counted i f) w).2.state = (Maybe.mbind mb f w.state).2 := by
  cases mb <;> simp [Maybe.mbind, counted]

theorem either_mbind_counted {σ T R : Type} (i : Nat) (e : Either T) (f : Fn σ T (Either R))
    (w : Probe σ) :
    (Either.mbind e (counted i f) w).1 = (Either.mbind e f w.state).1 ∧
      (Either.mbind e (counted i f) w).2.state = (Either.mbind e f w.state).2 := by
  cases e <;> simp [Either.mbind, counted]

theorem maybe_pipe3_counted {σ T A B C : Type} (i1 i2 i3 : Nat) (c : Maybe T)
    (f1 : Fn σ T (Maybe A)) (f2 : Fn σ A (Maybe B)) (f3 : Fn σ B (Maybe C)) (w : Probe σ) :
    (Maybe.pipe3 c (counted i1 f1) (counted i2 f2) (counted i3 f3) w).1
        = (Maybe.pipe3 c f1 f2 f3 w.state).1 ∧
      (Maybe.pipe3 c (counted i1 f1) (counted i2 f2) (counted i3 f3) w).2.state
        = (Maybe.pipe3 c f1 f2 f3 w.state).2 := by
  obtain ⟨a1, b1⟩ := maybe_mbind_counted i1 c f1 w
  obtain ⟨a2, b2⟩ := maybe_mbind_counted i2 (Maybe.mbind c (counted i1 f1) w).1 f2
    (Maybe.mbind c (counted i1 f1) w).2
  obtain ⟨a3, b3⟩ := maybe_mbind_counted i3
    (Maybe.mbind (Maybe.mbind c (counted i1 f1) w).1 (counted i2 f2)
      (Maybe.mbind c (counted i1 f1) w).2).1 f3
    (Maybe.mbind (Maybe.mbind c (counted i1 f1) w).1 (counted i2 f2)
      (Maybe.mbind c (counted i1 f1) w).2).2
  simp only [Maybe.pipe3, Maybe.pipe]
  rw [a3, b3, a2, b2, a1, b1]
  exact ⟨rfl, rfl⟩

theorem either_pipe3_counted {σ T A B C : Type} (i1 i2 i3 : Nat) (e : Either T)
    (f1 : Fn σ T (Either A)) (f2 : Fn σ A (Either B)) (f3 : Fn σ B (Either C)) (w : Probe σ) :
    (Either.pipe3 e (counted i1 f1) (counted i2 f2) (counted i3 f3) w).1
        = (Either.pipe3 e f1 f2 f3 w.state).1 ∧
      (Either.pipe3 e (counted i1 f1) (counted i2 f2) (counted i3 f3) w).2.state
        = (Either.pipe3 e f1 f2 f3 w.state).2 := by
  obtain ⟨a1, b1⟩ := either_mbind_counted i1 e f1 w
  obtain ⟨a2, b2⟩ := either_mbind_counted i2 (Either.mbind e (counted i1 f1) w).1 f2
    (Either.mbind e (counted i1 f1) w).2
  obtain ⟨a3, b3⟩ := either_mbind_counted i3
    (Either.mbind (Either.mbind e (counted i1 f1) w).1 (counted i2 f2)
      (Either.mbind e (counted i1 f1) w).2).1 f3
    (Either.mbind (Either.mbind e (counted i1 f1) w).1 (counted i2 f2)
      (Either.mbind e (counted i1 f1) w).2).2
  simp only [Either.pipe3, Either.pipe]
  rw [a3, b3, a2, b2, a1, b1]
  exact ⟨rfl, rfl⟩

/-! ## Bind on a single container -/

/-- C1: for every step function `f`, `mbind` of an absent `Maybe` is absent and
leaves the program state as it was; with `f` instrumented, the call log is
unchanged, so `f` is invoked zero times. -/
theorem maybe_mbind_absent {σ T R : Type} (f : Fn σ T (Maybe R)) (s : σ) (i : Nat)
    (w : Probe σ) :
    Maybe.mbind Maybe.nullopt f s = (Maybe.nullopt, s) ∧
      Maybe.mbind Maybe.nullopt (counted i f) w = (Maybe.nullopt, w) ∧
      invocations i (Maybe.mbind Maybe.nullopt (counted i f) w).2 = invocations i w :=
  ⟨rfl, rfl, rfl⟩

/-- C2: for every value `v` and step function `f`, `mbind` of a present `Maybe`
holding `v` is exactly `f v` (result and state), and with `f` instrumented the
call log grows by exactly one entry for `f`: `f` is invoked exactly once. -/
theorem maybe_mbind_present {σ T R : Type} (v : T) (f : Fn σ T (Maybe R)) (s : σ) (i : Nat)
    (w : Probe σ) :
    Maybe.mbind (Maybe.of v) f s = f v s ∧
      (Maybe.mbind (Maybe.of v) (counted i f) w).1 = (f v w.state).1 ∧
      (Maybe.mbind (Maybe.of v) (counted i f) w).2.state = (f v w.state).2 ∧
      (Maybe.mbind (Maybe.of v) (counted i f) w).2.calls = w.calls ++ [i] ∧
      invocations i (Maybe.mbind (Maybe.of v) (counted i f) w).2 = invocations i w + 1 := by
  refine ⟨rfl, rfl, rfl, rfl, ?_⟩
  simp [Maybe.mbind, Maybe.of, counted, invocations]

/-- C3: for every error record `e` and step function `f`, `mbind` of a failed
`Either` is a failure of the result type carrying the record `e` itself, so
extracting the error channel gives `e` with the identical message; the program
state and the call log are unchanged, so `f` is invoked zero times. -/
theorem either_mbind_failure {σ T R : Type} (e : Err) (f : Fn σ T (Either R)) (s : σ) (i : Nat)
    (w : Probe σ) :
    Either.mbind (Either.ofErr e) f s = (Either.ofErr e, s) ∧
      Either.getErr (Either.mbind (Either.ofErr e) f s).1 = .ok e ∧
      (Either.getErr (Either.mbind (Either.ofErr e) f s).1).map Err.what = .ok e.what ∧
      Either.mbind (Either.ofErr e) (counted i f) w = (Either.ofErr e, w) ∧
      invocations i (Either.mbind (Either.ofErr e) (counted i f) w).2 = invocations i w :=
  ⟨rfl, rfl, rfl, rfl, rfl⟩

/-- C4: for every value `v` and step function `f`, `mbind` of a successful
`Either` holding `v` is exactly `f v` (result and state), and with `f`
instrumented the call log grows by exactly one entry for `f`. -/
theorem either_mbind_success {σ T R : Type} (v : T) (f : Fn σ T (Either R)) (s : σ) (i : Nat)
    (w : Probe σ) :
    Either.mbind (Either.ofValue v) f s = f v s ∧
      (Either.mbind (Either.ofValue v) (counted i f) w).1 = (f v w.state).1 ∧
      (Either.mbind (Either.ofValue v) (counted i f) w).2.state = (f v w.state).2 ∧
      (Either.mbind (Either.ofValue v) (counted i f) w).2.calls = w.calls ++ [i] ∧
      invocations i (Either.mbind (Either.ofValue v) (counted i f) w).2
        = invocations i w + 1 := by
  refine ⟨rfl, rfl, rfl, rfl, ?_⟩
  simp [Either.mbind, Either.ofValue, counted, invocations]

/-! ## The pipe operator -/

/-- C5: for every `Maybe` `c`, step function `f` and program state, `c | f` is
`mbind(c, f)`: same result, same final state. -/
theorem maybe_pipe_eq_mbind {σ T R : Type} (c : Maybe T) (f : Fn σ T (Maybe R)) (s : σ) :
    Maybe.pipe c f s = Maybe.mbind c f s :=
  rfl

/-- C6: for every `Either` `e`, step function `f` and program state, `e | f` is
`mbind(e, f)`; spelled out for a successful and for a failed `e`. -/
theorem either_pipe_eq_mbind {σ T R : Type} (e : Either T) (f : Fn σ T (Either R)) (s : σ) :
    Either.pipe e f s = Either.mbind e f s ∧
      (∀ v : T, Either.pipe (Either.ofValue v) f s = Either.mbind (Either.ofValue v) f s) ∧
      (∀ err : Err, Either.pipe (Either.ofErr err) f s = Either.mbind (Either.ofErr err) f s) :=
  ⟨rfl, fun _ => rfl, fun _ => rfl⟩

/-! ## Chains of three steps -/

/-- C7: in `c | f1 | f2 | f3` over `Maybe`, with the steps instrumented as 1, 2
and 3: if `c` is absent the chain is absent and no step is invoked; if `f1`
returns absent on the value of `c`, the chain is absent and only `f1` is
invoked; if `f2` returns absent on the value produced by `f1`, the chain is
absent, exactly `f1` then `f2` are invoked, and step 3 is invoked zero times.
The final state is the one left by the last step that ran. -/
theorem maybe_pipe3_short_circuit {σ T A B C : Type} (c : Maybe T) (f1 : Fn σ T (Maybe A))
    (f2 : Fn σ A (Maybe B)) (f3 : Fn σ B (Maybe C)) (w : Probe σ) :
    (c = Maybe.nullopt →
      Maybe.pipe3 c (counted 1 f1) (counted 2 f2) (counted 3 f3) w = (Maybe.nullopt, w)) ∧
    (∀ v : T, c = Maybe.of v → (f1 v w.state).1 = Maybe.nullopt →
      Maybe.pipe3 c (counted 1 f1) (counted 2 f2) (counted 3 f3) w
        = (Maybe.nullopt, { state := (f1 v w.state).2, calls := w.calls ++ [1] })) ∧
    (∀ (v : T) (a : A), c = Maybe.of v → (f1 v w.state).1 = Maybe.of a →
      (f2 a (f1 v w.state).2).1 = Maybe.nullopt →
      Maybe.pipe3 c (counted 1 f1) (counted 2 f2) (counted 3 f3) w
        = (Maybe.nullopt,
            { state := (f2 a (f1 v w.state).2).2, calls := w.calls ++ [1, 2] }) ∧
      invocations 3 (Maybe.pipe3 c (counted 1 f1) (counted 2 f2) (counted 3 f3) w).2
        = invocations 3 w) := by
  refine ⟨?_, ?_, ?_⟩
  · intro hc
    subst hc
    rfl
  · intro v hc h1
    subst hc
    simp [Maybe.pipe3, Maybe.pipe, Maybe.mbind, Maybe.of, Maybe.nullopt, counted, h1]
  · intro v a hc h1 h2
    subst hc
    simp [Maybe.pipe3, Maybe.pipe, Maybe.mbind, Maybe.of, Maybe.nullopt, counted, invocations,
      h1, h2]

/-- Witness of C7 on the steps of `TestMaybe.cpp`: an absent source, `modulo`
failing as first step on 0, and `modulo` failing as second step on 0. -/
theorem maybe_pipe3_short_circuit_witness :
    Maybe.pipe3 (Maybe.nullopt : Maybe Int) (counted 1 (pureFn MaybeTest.multiplyOne))
        (counted 2 (pureFn MaybeTest.modulo)) (counted 3 (pureFn MaybeTest.multiplyOne))
        ({ state := (), calls := [] } : Probe Unit)
      = (Maybe.nullopt, { state := (), calls := [] }) ∧
    Maybe.pipe3 (Maybe.of (0 : Int)) (counted 1 (pureFn MaybeTest.modulo))
        (counted 2 (pureFn MaybeTest.multiplyOne)) (counted 3 (pureFn MaybeTest.multiplyOne))
        ({ state := (), calls := [] } : Probe Unit)
      = (Maybe.nullopt, { state := (), calls := [1] }) ∧
    (Maybe.pipe3 (Maybe.of (0 : Int)) (counted 1 (pureFn MaybeTest.multiplyOne))
        (counted 2 (pureFn MaybeTest.modulo)) (counted 3 (pureFn MaybeTest.multiplyOne))
        ({ state := (), calls := [] } : Probe Unit)
      = (Maybe.nullopt, { state := (), calls := [1, 2] }) ∧
     invocations 3 (Maybe.pipe3 (Maybe.of (0 : Int)) (counted 1 (pureFn MaybeTest.multiplyOne))
        (counted 2 (pureFn MaybeTest.modulo)) (counted 3 (pureFn MaybeTest.multiplyOne))
        ({ state := (), calls := [] } : Probe Unit)).2
      = invocations 3 ({ state := (), calls := [] } : Probe Unit)) :=
  ⟨(maybe_pipe3_short_circuit (Maybe.nullopt : Maybe Int) (pureFn MaybeTest.multiplyOne)
      (pureFn MaybeTest.modulo) (pureFn MaybeTest.multiplyOne)
      ({ state := (), calls := [] } : Probe Unit)).1 rfl,
   (maybe_pipe3_short_circuit (Maybe.of (0 : Int)) (pureFn MaybeTest.modulo)
      (pureFn MaybeTest.multiplyOne) (pureFn MaybeTest.multiplyOne)
      ({ state := (), calls := [] } : Probe Unit)).2.1 0 rfl rfl,
   (maybe_pipe3_short_circuit (Maybe.of (0 : Int)) (pureFn MaybeTest.multiplyOne)
      (pureFn MaybeTest.modulo) (pureFn MaybeTest.multiplyOne)
      ({ state := (), calls := [] } : Probe Unit)).2.2 0 0 rfl rfl rfl⟩

/-- C8: in `e | f1 | f2 | f3` over `Either`, with the steps instrumented as 1,
2 and 3, the result is a failure as soon as a stage fails and carries exactly
the error record of the first failing stage: the record of `e` with no step
invoked; else the record returned by `f1`, with only `f1` invoked; else the
record returned by `f2`, with exactly `f1` then `f2` invoked; else the record
returned by `f3`, each step having been invoked once. -/
theorem either_pipe3_first_failure {σ T A B C : Type} (e : Either T) (f1 : Fn σ T (Either A))
    (f2 : Fn σ A (Either B)) (f3 : Fn σ B (Either C)) (w : Probe σ) :
    (∀ err : Err, e = Either.ofErr err →
      Either.pipe3 e (counted 1 f1) (counted 2 f2) (counted 3 f3) w = (Either.ofErr err, w)) ∧
    (∀ (v : T) (err : Err), e = Either.ofValue v → (f1 v w.state).1 = Either.ofErr err →
      Either.pipe3 e (counted 1 f1) (counted 2 f2) (counted 3 f3) w
        = (Either.ofErr err, { state := (f1 v w.state).2, calls := w.calls ++ [1] })) ∧
    (∀ (v : T) (a : A) (err : Err), e = Either.ofValue v →
      (f1 v w.state).1 = Either.ofValue a →
      (f2 a (f1 v w.state).2).1 = Either.ofErr err →
      Either.pipe3 e (counted 1 f1) (counted 2 f2) (counted 3 f3) w
        = (Either.ofErr err,
            { state := (f2 a (f1 v w.state).2).2, calls := w.calls ++ [1, 2] })) ∧
    (∀ (v : T) (a : A) (b : B) (err : Err), e = Either.ofValue v →
      (f1 v w.state).1 = Either.ofValue a →
      (f2 a (f1 v w.state).2).1 = Either.ofValue b →
      (f3 b (f2 a (f1 v w.state).2).2).1 = Either.ofErr err →
      Either.pipe3 e (counted 1 f1) (counted 2 f2) (counted 3 f3) w
        = (Either.ofErr err,
            { state := (f3 b (f2 a (f1 v w.state).2).2).2, calls := w.calls ++ [1, 2, 3] })) := by
  refine ⟨?_, ?_, ?_, ?_⟩
  · intro err he
    subst he
    rfl
  · intro v err he h1
    subst he
    simp [Either.pipe3, Either.pipe, Either.mbind, Either.ofValue, Either.ofErr, counted, h1]
  · intro v a err he h1 h2
    subst he
    simp [Either.pipe3, Either.pipe, Either.mbind, Either.ofValue, Either.ofErr, counted, h1, h2]
  · intro v a b err he h1 h2 h3
    subst he
    simp [Either.pipe3, Either.pipe, Either.mbind, Either.ofValue, Either.ofErr, counted, h1, h2,
      h3]

/-- Witness of C8 on the steps of `TestEither.cpp`: a source built from
`InvalidInitErr`, and `modulo` failing on 0 as first, second and third step. -/
theorem either_pipe3_first_failure_witness :
    Either.pipe3 (Either.ofErr EitherTest.InvalidInitErr : Either Int)
        (counted 1 (pureFn EitherTest.multiplyOne)) (counted 2 (pureFn EitherTest.modulo))
        (counted 3 (pureFn EitherTest.multiplyOne)) ({ state := (), calls := [] } : Probe Unit)
      = (Either.ofErr EitherTest.InvalidInitErr, { state := (), calls := [] }) ∧
    Either.pipe3 (Either.ofValue (0 : Int))
        (counted 1 (pureFn EitherTest.modulo)) (counted 2 (pureFn EitherTest.multiplyOne))
        (counted 3 (pureFn EitherTest.multiplyOne)) ({ state := (), calls := [] } : Probe Unit)
      = (Either.ofErr EitherTest.DivisionByZeroErr, { state := (), calls := [1] }) ∧
    Either.pipe3 (Either.ofValue (0 : Int))
        (counted 1 (pureFn EitherTest.multiplyOne)) (counted 2 (pureFn EitherTest.modulo))
        (counted 3 (pureFn EitherTest.multiplyOne)) ({ state := (), calls := [] } : Probe Unit)
      = (Either.ofErr EitherTest.DivisionByZeroErr, { state := (), calls := [1, 2] }) ∧
    Either.pipe3 (Either.ofValue (0 : Int))
        (counted 1 (pureFn EitherTest.multiplyOne)) (counted 2 (pureFn EitherTest.multiplyOne))
        (counted 3 (pureFn EitherTest.modulo)) ({ state := (), calls := [] } : Probe Unit)
      = (Either.ofErr EitherTest.DivisionByZeroErr, { state := (), calls := [1, 2, 3] }) :=
  ⟨(either_pipe3_first_failure (Either.ofErr EitherTest.InvalidInitErr : Either Int)
      (pureFn EitherTest.multiplyOne) (pureFn EitherTest.modulo)
      (pureFn EitherTest.multiplyOne) ({ state := (), calls := [] } : Probe Unit)).1
      EitherTest.InvalidInitErr rfl,
   (either_pipe3_first_failure (Either.ofValue (0 : Int))
      (pureFn EitherTest.modulo) (pureFn EitherTest.multiplyOne)
      (pureFn EitherTest.multiplyOne) ({ state := (), calls := [] } : Probe Unit)).2.1
      0 EitherTest.DivisionByZeroErr rfl rfl,
   (either_pipe3_first_failure (Either.ofValue (0 : Int))
      (pureFn EitherTest.multiplyOne) (pureFn EitherTest.modulo)
      (pureFn EitherTest.multiplyOne) ({ state := (), calls := [] } : Probe Unit)).2.2.1
      0 0 EitherTest.DivisionByZeroErr rfl rfl rfl,
   (either_pipe3_first_failure (Either.ofValue (0 : Int))
      (pureFn EitherTest.multiplyOne) (pureFn EitherTest.multiplyOne)
      (pureFn EitherTest.modulo) ({ state := (), calls := [] } : Probe Unit)).2.2.2
      0 0 0 EitherTest.DivisionByZeroErr rfl rfl rfl rfl⟩

/-! ## Extraction -/

/-- C9: a `Maybe` constructed from a value `v` is present and its checked
extraction returns `v`; a `Maybe` constructed from the no-value marker is not
present and its checked extraction signals `bad_optional_access`; for every
`Maybe`, the absent result of an `mbind` or of a pipe included, absence is
equivalent to checked extraction signalling that condition, and then no value
at all (so no default value) is returned. -/
theorem maybe_extraction {σ T U : Type} (v : T) (m : Maybe T) (mb : Maybe U)
    (f : Fn σ U (Maybe T)) (s : σ) :
    (Maybe.has_value (Maybe.of v) = true ∧ Maybe.value (Maybe.of v) = .ok v) ∧
    (Maybe.has_value (Maybe.nullopt : Maybe T) = false ∧
      Maybe.value (Maybe.nullopt : Maybe T) = .error .bad_optional_access) ∧
    (Maybe.has_value m = false ↔ Maybe.value m = .error .bad_optional_access) ∧
    (Maybe.has_value m = false ↔ ∀ d : T, Maybe.value m ≠ .ok d) ∧
    (Maybe.has_value (Maybe.mbind mb f s).1 = false ↔
      Maybe.value (Maybe.mbind mb f s).1 = .error .bad_optional_access) ∧
    (Maybe.has_value (Maybe.pipe mb f s).1 = false ↔
      Maybe.value (Maybe.pipe mb f s).1 = .error .bad_optional_access) ∧
    Maybe.value (Maybe.mbind (Maybe.nullopt : Maybe U) f s).1 = .error .bad_optional_access ∧
    Maybe.value (Maybe.pipe (Maybe.nullopt : Maybe U) f s).1 = .error .bad_optional_access := by
  have key : ∀ x : Maybe T,
      Maybe.has_value x = false ↔ Maybe.value x = .error .bad_optional_access := by
    intro x
    cases x <;> simp [Maybe.has_value, Maybe.value]
  refine ⟨⟨rfl, rfl⟩, ⟨rfl, rfl⟩, key m, ?_, key _, key _, rfl, rfl⟩
  cases m <;> simp [Maybe.has_value, Maybe.value]

/-- C10: an `Either` constructed from a value `v` yields `v` on the success
channel and signals `bad_variant_access` on the error channel; an `Either`
constructed from an error record `e` yields `e`, with the message of `e`, on
the error channel and signals `bad_variant_access` on the success channel. -/
theorem either_extraction {T : Type} (v : T) (e : Err) :
    (Either.getValue (Either.ofValue v) = .ok v ∧
      Either.getErr (Either.ofValue v) = .error .bad_variant_access) ∧
    (Either.getErr (Either.ofErr e : Either T) = .ok e ∧
      (Either.getErr (Either.ofErr e : Either T)).map Err.what = .ok e.what ∧
      Either.getValue (Either.ofErr e : Either T) = .error .bad_variant_access) :=
  ⟨⟨rfl, rfl⟩, rfl, rfl, rfl⟩

/-! ## Channel predicates -/

/-- C11: for every `Either` `e`, the visit of `IsRight` is true exactly when `e`
holds a success value, the visit of `IsLeft` is true exactly when `e` holds an
error record, `IsLeft` is the negation of `IsRight`, and exactly one of the two
is true. -/
theorem either_isRight_isLeft_complementary {T : Type} (e : Either T) :
    (visit IsRight e = true ↔ ∃ v : T, e = Either.ofValue v) ∧
    (visit IsLeft e = true ↔ ∃ err : Err, e = Either.ofErr err) ∧
    visit IsLeft e = !(visit IsRight e) ∧
    (visit IsRight e ≠ visit IsLeft e) ∧
    ((visit IsRight e = true ∧ visit IsLeft e = false) ∨
      (visit IsRight e = false ∧ visit IsLeft e = true)) := by
  cases e <;> simp [visit, IsRight, IsLeft, Either.ofValue, Either.ofErr]

/-! ## The kind of a failure record -/

/-- The records stored by the fixtures are the markers after initialisation of
the `Err` alternative. -/
theorem marker_toErr_fixtures :
    (Marker.construct .InvalidInitErr).toErr = EitherTest.InvalidInitErr ∧
    (Marker.construct .DivisionByZeroErr).toErr = EitherTest.DivisionByZeroErr ∧
    (Marker.construct .SqrtNegativeErr).toErr = EitherTest.SqrtNegativeErr :=
  ⟨rfl, rfl, rfl⟩

/-- C12, as stated, fails: the record stored from `InvalidInitErr{}` does not
have the kind `InvalidInitErr`, and the failures built from `InvalidInitErr{}`
and from `DivisionByZeroErr{}`, two different markers, have the same kind.
Indeed the `Either` built from `InvalidInitErr{}` is the very `Either` built
from a plain `Err` with the same message. -/
theorem either_marker_kind_not_kept :
    Either.kind (Either.ofObject (Marker.construct .InvalidInitErr) : Either Int)
      ≠ some (Marker.construct .InvalidInitErr).dynamicType ∧
    (Marker.construct .InvalidInitErr).dynamicType
      ≠ (Marker.construct .DivisionByZeroErr).dynamicType ∧
    Either.kind (Either.ofObject (Marker.construct .InvalidInitErr) : Either Int)
      = Either.kind (Either.ofObject (Marker.construct .DivisionByZeroErr) : Either Int) ∧
    (Either.ofObject (Marker.construct .InvalidInitErr) : Either Int)
      = Either.ofObject { dynamicType := .runtime_error, what := "Invalid initialization" } := by
  decide

/-- C12, amended: an `Either` constructed from a marker stores a record with
the fixed message of the marker, whose kind is `Err` itself whatever the
marker; `mbind` carries that record, message and kind, unchanged into
`Either<R>` without running the step; and two markers have the same message
only if they are the same marker, so failures built from different markers are
told apart by message. -/
theorem either_marker_message_kept {σ T R : Type} (m m2 : Marker) (f : Fn σ T (Either R))
    (s : σ) :
    (Either.getErr (Either.ofObject m.construct : Either T)).map Err.what = .ok m.message ∧
    Either.kind (Either.ofObject m.construct : Either T) = some ErrClass.runtime_error ∧
    Either.mbind (Either.ofObject m.construct : Either T) f s
      = (Either.ofObject m.construct, s) ∧
    (Either.getErr (Either.mbind (Either.ofObject m.construct : Either T) f s).1).map Err.what
      = .ok m.message ∧
    Either.kind (Either.mbind (Either.ofObject m.construct : Either T) f s).1
      = Either.kind (Either.ofObject m.construct : Either T) ∧
    (m.message = m2.message ↔ m = m2) ∧
    ((Either.ofObject m.construct : Either T) = Either.ofObject m2.construct ↔ m = m2) := by
  refine ⟨rfl, rfl, rfl, rfl, rfl, ?_, ?_⟩
  · cases m <;> cases m2 <;> simp [Marker.message]
  · cases m <;> cases m2 <;>
      simp [Either.ofObject, ErrObject.toErr, Marker.construct, Marker.message]

/-! ## The scenarios of the unit tests -/

/-- C13: scenario A. Starting from `Maybe<int>` 42, the pipe through
`multiplyOne`, `modulo` and `squareRoot` is present and holds the square root of
the `float` 0, which is `0.0` as soon as the square root of `0.0` is `0.0`. -/
theorem maybe_scenario_A {σ F : Type} (ops : FloatOps F) (zero : F)
    (h : ops.sqrt (ops.ofInt 0) = zero) (s : σ) :
    Maybe.pipe3 (Maybe.of (42 : Int)) (pureFn MaybeTest.multiplyOne)
        (pureFn MaybeTest.modulo) (pureFn (MaybeTest.squareRoot ops)) s
      = (Maybe.of (ops.sqrt (ops.ofInt 0)), s) ∧
    Maybe.pipe3 (Maybe.of (42 : Int)) (pureFn MaybeTest.multiplyOne)
        (pureFn MaybeTest.modulo) (pureFn (MaybeTest.squareRoot ops)) s
      = (Maybe.of zero, s) ∧
    Maybe.has_value (Maybe.pipe3 (Maybe.of (42 : Int)) (pureFn MaybeTest.multiplyOne)
        (pureFn MaybeTest.modulo) (pureFn (MaybeTest.squareRoot ops)) s).1 = true ∧
    Maybe.value (Maybe.pipe3 (Maybe.of (42 : Int)) (pureFn MaybeTest.multiplyOne)
        (pureFn MaybeTest.modulo) (pureFn (MaybeTest.squareRoot ops)) s).1 = .ok zero := by
  have key : Maybe.pipe3 (Maybe.of (42 : Int)) (pureFn MaybeTest.multiplyOne)
      (pureFn MaybeTest.modulo) (pureFn (MaybeTest.squareRoot ops)) s
      = (Maybe.of zero, s) := by
    simp [Maybe.pipe3, Maybe.pipe, Maybe.mbind, Maybe.of, pureFn, MaybeTest.multiplyOne,
      MaybeTest.modulo, MaybeTest.squareRoot, Int.tmod, h]
  rw [key]
  exact ⟨by rw [h], rfl, rfl, rfl⟩

/-- Witness of C13 with the integer square root on the natural numbers in place
of the `float` square root. -/
theorem maybe_scenario_A_witness :
    Maybe.pipe3 (Maybe.of (42 : Int)) (pureFn MaybeTest.multiplyOne)
        (pureFn MaybeTest.modulo)
        (pureFn (MaybeTest.squareRoot { ofInt := Int.toNat, sqrt := Nat.sqrt })) ()
      = (Maybe.of 0, ()) :=
  (maybe_scenario_A { ofInt := Int.toNat, sqrt := Nat.sqrt } 0 (by decide) ()).2.1

/-- C14: scenario B. Starting from `Maybe<int>` 0, `modulo` is absent on 0 and
the pipe through `multiplyOne`, `modulo` and `squareRoot` is absent; with the
steps instrumented as 1, 2 and 3 the call log gains exactly `multiplyOne` then
`modulo`, so `squareRoot` is invoked zero times. -/
theorem maybe_scenario_B {σ F : Type} (ops : FloatOps F) (w : Probe σ) :
    MaybeTest.modulo 0 = Maybe.nullopt ∧
    (Maybe.pipe3 (Maybe.of (0 : Int)) (pureFn MaybeTest.multiplyOne)
        (pureFn MaybeTest.modulo) (pureFn (MaybeTest.squareRoot ops)) w.state).1
      = Maybe.nullopt ∧
    Maybe.pipe3 (Maybe.of (0 : Int)) (counted 1 (pureFn MaybeTest.multiplyOne))
        (counted 2 (pureFn MaybeTest.modulo)) (counted 3 (pureFn (MaybeTest.squareRoot ops))) w
      = (Maybe.nullopt, { state := w.state, calls := w.calls ++ [1, 2] }) ∧
    invocations 3 (Maybe.pipe3 (Maybe.of (0 : Int)) (counted 1 (pureFn MaybeTest.multiplyOne))
        (counted 2 (pureFn MaybeTest.modulo))
        (counted 3 (pureFn (MaybeTest.squareRoot ops))) w).2
      = invocations 3 w := by
  refine ⟨rfl, ?_, ?_, ?_⟩ <;>
    simp [Maybe.pipe3, Maybe.pipe, Maybe.mbind, Maybe.of, Maybe.nullopt, pureFn, counted,
      invocations, MaybeTest.multiplyOne, MaybeTest.modulo]

/-- C15: scenario C. Starting from `Either<int>` -42, the pipe through
`multiplyOne` then `squareRoot` is a failure, the record built from
`SqrtNegativeErr`, and its message is exactly
"Trying to square root negative integer". -/
theorem either_scenario_C {σ F : Type} (ops : FloatOps F) (s : σ) :
    Either.pipe2 (Either.ofValue (-42 : Int)) (pureFn EitherTest.multiplyOne)
        (pureFn (EitherTest.squareRoot ops)) s
      = (Either.ofErr EitherTest.SqrtNegativeErr, s) ∧
    visit IsLeft (Either.pipe2 (Either.ofValue (-42 : Int)) (pureFn EitherTest.multiplyOne)
        (pureFn (EitherTest.squareRoot ops)) s).1 = true ∧
    (Either.getErr (Either.pipe2 (Either.ofValue (-42 : Int)) (pureFn EitherTest.multiplyOne)
        (pureFn (EitherTest.squareRoot ops)) s).1).map Err.what
      = .ok "Trying to square root negative integer" := by
  have key : Either.pipe2 (Either.ofValue (-42 : Int)) (pureFn EitherTest.multiplyOne)
      (pureFn (EitherTest.squareRoot ops)) s
      = (Either.ofErr EitherTest.SqrtNegativeErr, s) := by
    simp [Either.pipe2, Either.pipe, Either.mbind, Either.ofValue, pureFn,
      EitherTest.multiplyOne, EitherTest.squareRoot]
  rw [key]
  exact ⟨rfl, rfl, rfl⟩

/-- C16: scenario D. Starting from the failure with message
"Invalid initialization", for every three step functions the pipe
`e | f1 | f2 | f3` is the failure carrying that same record, its message is
"Invalid initialization", and with the steps instrumented as 1, 2 and 3 the
state and the call log are unchanged: none of the steps is invoked. -/
theorem either_scenario_D {σ T A B C : Type} (f1 : Fn σ T (Either A)) (f2 : Fn σ A (Either B))
    (f3 : Fn σ B (Either C)) (s : σ) (w : Probe σ) :
    EitherTest.InvalidInitErr.what = "Invalid initialization" ∧
    Either.pipe3 (Either.ofErr EitherTest.InvalidInitErr) f1 f2 f3 s
      = (Either.ofErr EitherTest.InvalidInitErr, s) ∧
    (Either.getErr (Either.pipe3 (Either.ofErr EitherTest.InvalidInitErr) f1 f2 f3 s).1).map
        Err.what = .ok "Invalid initialization" ∧
    Either.pipe3 (Either.ofErr EitherTest.InvalidInitErr) (counted 1 f1) (counted 2 f2)
        (counted 3 f3) w = (Either.ofErr EitherTest.InvalidInitErr, w) ∧
    (∀ i : Nat, invocations i (Either.pipe3 (Either.ofErr EitherTest.InvalidInitErr)
        (counted 1 f1) (counted 2 f2) (counted 3 f3) w).2 = invocations i w) :=
  ⟨rfl, rfl, rfl, rfl, fun _ => rfl⟩

/-! ## Move versus copy in the demonstration runs -/

/-- C17: evaluating `create_expensive_m(true) | accumulate_expensive_m` from any
program state whose instance counter has room for the two instances created
writes exactly the lines Constructed, Moved, Destroyed (the temporary payload),
Accumulating, Destroyed (the piped container), none of them a copy event, so
the number of copy events in the trace is unchanged; the `Either` form
`create_expensive_e(true) | accumulate_expensive_e` writes the same lines. Both
results hold 42 and the counter ends two higher, within range. -/
theorem demo_pipe_temporary_no_copy (s : Program) (h : s.count + 2 ≤ INT_MAX) :
    ((Demo.result3 s).2.out = s.out ++ [Event.constructed (s.count + 1),
        Event.moved (s.count + 2), Event.destroyed (s.count + 1),
        Event.accumulating (s.count + 2), Event.destroyed (s.count + 2)] ∧
      copyEvents (Demo.result3 s).2.out = copyEvents s.out ∧
      (Demo.result3 s).1 = Maybe.of 42 ∧
      (Demo.result3 s).2.count = s.count + 2 ∧ (Demo.result3 s).2.count ≤ INT_MAX) ∧
    ((Demo.result9 s).2.out = s.out ++ [Event.constructed (s.count + 1),
        Event.moved (s.count + 2), Event.destroyed (s.count + 1),
        Event.accumulating (s.count + 2), Event.destroyed (s.count + 2)] ∧
      copyEvents (Demo.result9 s).2.out = copyEvents s.out ∧
      (Demo.result9 s).1 = Either.ofValue 42 ∧
      (Demo.result9 s).2.count = s.count + 2 ∧ (Demo.result9 s).2.count ≤ INT_MAX) := by
  have h3 : (Demo.result3 s).2.out = s.out ++ [Event.constructed (s.count + 1),
      Event.moved (s.count + 2), Event.destroyed (s.count + 1),
      Event.accumulating (s.count + 2), Event.destroyed (s.count + 2)] := by
    simp [Demo.result3, create_expensive_m, Maybe.pipe, Maybe.mbind, Maybe.of,
      accumulate_expensive_m, destroy_maybe, ExpensiveToCopy.construct,
      ExpensiveToCopy.moveConstruct, ExpensiveToCopy.destroy]
  have h9 : (Demo.result9 s).2.out = s.out ++ [Event.constructed (s.count + 1),
      Event.moved (s.count + 2), Event.destroyed (s.count + 1),
      Event.accumulating (s.count + 2), Event.destroyed (s.count + 2)] := by
    simp [Demo.result9, create_expensive_e, Either.pipe, Either.mbind, Either.ofValue,
      accumulate_expensive_e, destroy_either, ExpensiveToCopy.construct,
      ExpensiveToCopy.moveConstruct, ExpensiveToCopy.destroy]
  have c3 : (Demo.result3 s).2.count = s.count + 2 := rfl
  have c9 : (Demo.result9 s).2.count = s.count + 2 := rfl
  refine ⟨⟨h3, ?_, rfl, c3, c3 ▸ h⟩, ⟨h9, ?_, rfl, c9, c9 ▸ h⟩⟩
  · rw [h3]
    simp [copyEvents, Event.isCopy]
  · rw [h9]
    simp [copyEvents, Event.isCopy]

/-- Witness of C17 at the start of the program: the counter is 0 and nothing
has been written. -/
theorem demo_pipe_temporary_no_copy_witness :
    (Demo.result3 Program.start).2.out = Program.start.out ++
        [Event.constructed (Program.start.count + 1), Event.moved (Program.start.count + 2),
         Event.destroyed (Program.start.count + 1),
         Event.accumulating (Program.start.count + 2),
         Event.destroyed (Program.start.count + 2)] ∧
    copyEvents (Demo.result3 Program.start).2.out = copyEvents Program.start.out :=
  ⟨(demo_pipe_temporary_no_copy Program.start (by decide)).1.1,
   (demo_pipe_temporary_no_copy Program.start (by decide)).1.2.1⟩

/-- C18, as stated, fails: run from the start of the program, the statements
`auto expensive_maybe = create_expensive_m(true);`
`auto result2 = mbind(expensive_maybe, accumulate_expensive_m);`
leave a trace without a single copy event. -/
theorem demo_bind_named_copy_refuted :
    ¬ (1 ≤ copyEvents (Demo.result2 Program.start).2.out) ∧
    (Demo.result2 Program.start).2.out
      = [Event.constructed 1, Event.moved 2, Event.destroyed 1, Event.accumulating 2] := by
  decide

/-- C18, amended: binding the named container with
`mbind(expensive_maybe, accumulate_expensive_m)` yields no copy event. From any
program state whose instance counter has room for the two instances created,
the two statements write exactly the lines Constructed, Moved, Destroyed (the
temporary payload of `create_expensive_m`) and Accumulating, the number of copy
events in the trace is unchanged, the named container still holds its payload
afterwards, and the result holds 42. The `Either` form
`mbind(expensive_either, accumulate_expensive_e)` behaves the same. -/
theorem demo_bind_named_no_copy (s : Program) (h : s.count + 2 ≤ INT_MAX) :
    ((Demo.result2 s).2.out = s.out ++ [Event.constructed (s.count + 1),
        Event.moved (s.count + 2), Event.destroyed (s.count + 1),
        Event.accumulating (s.count + 2)] ∧
      copyEvents (Demo.result2 s).2.out = copyEvents s.out ∧
      (Demo.result2 s).1.1
        = Maybe.of { id := s.count + 2, data := ExpensiveToCopy.defaultData } ∧
      (Demo.result2 s).1.2 = Maybe.of 42 ∧
      (Demo.result2 s).2.count = s.count + 2 ∧ (Demo.result2 s).2.count ≤ INT_MAX) ∧
    ((Demo.result8 s).2.out = s.out ++ [Event.constructed (s.count + 1),
        Event.moved (s.count + 2), Event.destroyed (s.count + 1),
        Event.accumulating (s.count + 2)] ∧
      copyEvents (Demo.result8 s).2.out = copyEvents s.out ∧
      (Demo.result8 s).1.1
        = Either.ofValue { id := s.count + 2, data := ExpensiveToCopy.defaultData } ∧
      (Demo.result8 s).1.2 = Either.ofValue 42 ∧
      (Demo.result8 s).2.count = s.count + 2 ∧ (Demo.result8 s).2.count ≤ INT_MAX) := by
  have h2 : (Demo.result2 s).2.out = s.out ++ [Event.constructed (s.count + 1),
      Event.moved (s.count + 2), Event.destroyed (s.count + 1),
      Event.accumulating (s.count + 2)] := by
    simp [Demo.result2, create_expensive_m, Maybe.mbind, Maybe.of,
      accumulate_expensive_m, ExpensiveToCopy.construct,
      ExpensiveToCopy.moveConstruct, ExpensiveToCopy.destroy]
  have h8 : (Demo.result8 s).2.out = s.out ++ [Event.constructed (s.count + 1),
      Event.moved (s.count + 2), Event.destroyed (s.count + 1),
      Event.accumulating (s.count + 2)] := by
    simp [Demo.result8, create_expensive_e, Either.mbind, Either.ofValue,
      accumulate_expensive_e, ExpensiveToCopy.construct,
      ExpensiveToCopy.moveConstruct, ExpensiveToCopy.destroy]
  have c2 : (Demo.result2 s).2.count = s.count + 2 := rfl
  have c8 : (Demo.result8 s).2.count = s.count + 2 := rfl
  refine ⟨⟨h2, ?_, rfl, rfl, c2, c2 ▸ h⟩, ⟨h8, ?_, rfl, rfl, c8, c8 ▸ h⟩⟩
  · rw [h2]
    simp [copyEvents, Event.isCopy]
  · rw [h8]
    simp [copyEvents, Event.isCopy]

/-- Witness of the amended C18 at the state left by the first demonstration
run, which creates nothing: the counter is 0 and nothing has been written. -/
theorem demo_bind_named_no_copy_witness :
    copyEvents (Demo.result2 Program.start).2.out = copyEvents Program.start.out ∧
    (Demo.result2 Program.start).1.1
      = Maybe.of { id := Program.start.count + 2, data := ExpensiveToCopy.defaultData } :=
  ⟨(demo_bind_named_no_copy Program.start (by decide)).1.2.1,
   (demo_bind_named_no_copy Program.start (by decide)).1.2.2.1⟩

/-! ## Dispatch of the demonstration program -/

/-- C20: for every parsed state, `main` selects the unsupported-options action
(built from the collected tokens) if the list of unsupported tokens is not
empty; else the help action if the help flag is set; else the usage action if
the usage flag is set; else the version action if the version flag is set;
else the main demonstration action. -/
theorem demo_dispatch_priority (o : CliOptionValues) :
    (o.m_Unsupported ≠ [] →
      programAction o = ProgramAction.UnsupportedOptionsAction o.m_Unsupported) ∧
    (o.m_Unsupported = [] → o.m_ShowHelp = true →
      programAction o = ProgramAction.ShowHelpAction) ∧
    (o.m_Unsupported = [] → o.m_ShowHelp = false → o.m_PrintUsage = true →
      programAction o = ProgramAction.ShowUsageAction) ∧
    (o.m_Unsupported = [] → o.m_ShowHelp = false → o.m_PrintUsage = false →
      o.m_ShowVersion = true → programAction o = ProgramAction.ShowVersionInfoAction) ∧
    (o.m_Unsupported = [] → o.m_ShowHelp = false → o.m_PrintUsage = false →
      o.m_ShowVersion = false → programAction o = ProgramAction.MainProgramAction) := by
  obtain ⟨u, h, p, v⟩ := o
  refine ⟨?_, ?_, ?_, ?_, ?_⟩
  · intro hu
    cases u with
    | nil => exact absurd rfl hu
    | cons a t => simp [programAction]
  · intro hu hh
    simp only at hu hh
    subst hu hh
    simp [programAction]
  · intro hu hh hp
    simp only at hu hh hp
    subst hu hh hp
    simp [programAction]
  · intro hu hh hp hv
    simp only at hu hh hp hv
    subst hu hh hp hv
    simp [programAction]
  · intro hu hh hp hv
    simp only at hu hh hp hv
    subst hu hh hp hv
    simp [programAction]

/-- Witness of C20: one parsed state per branch, every lower-priority flag set
as well. -/
theorem demo_dispatch_priority_witness :
    programAction (CliOptionValues.mk ["--bogus"] true true true)
      = ProgramAction.UnsupportedOptionsAction ["--bogus"] ∧
    programAction (CliOptionValues.mk [] true true true) = ProgramAction.ShowHelpAction ∧
    programAction (CliOptionValues.mk [] false true true) = ProgramAction.ShowUsageAction ∧
    programAction (CliOptionValues.mk [] false false true) = ProgramAction.ShowVersionInfoAction ∧
    programAction (CliOptionValues.mk [] false false false) = ProgramAction.MainProgramAction :=
  ⟨(demo_dispatch_priority (CliOptionValues.mk ["--bogus"] true true true)).1 (by decide),
   (demo_dispatch_priority (CliOptionValues.mk [] true true true)).2.1 rfl rfl,
   (demo_dispatch_priority (CliOptionValues.mk [] false true true)).2.2.1 rfl rfl rfl,
   (demo_dispatch_priority (CliOptionValues.mk [] false false true)).2.2.2.1 rfl rfl rfl rfl,
   (demo_dispatch_priority (CliOptionValues.mk [] false false false)).2.2.2.2 rfl rfl rfl rfl⟩

/-! ## Exit status of the demonstration program -/

/-- C21, on the code: the value `main` hands to its `return` statement, the
result of `execute`, is `EXIT_FAILURE` exactly when at least one unsupported
token was collected and `EXIT_SUCCESS` in every other case (help, usage,
version, demonstration run); but the action object is then deleted through a
pointer to `ProgramAction`, whose destructor is not virtual, which is undefined
behaviour for every action `main` can create: no run of `main` ends with a
defined exit status, for instance not the run on `--help`. -/
theorem demo_exit_status_undefined (o : CliOptionValues) (a : ProgramAction) (s : Program) :
    main o = none ∧
    main (CliOptionValues.mk [] true false false) = none ∧
    a.deleteThroughBase s = none ∧
    (((programAction o).execute Program.start).1 = ExitStatus.EXIT_FAILURE ↔
      o.m_Unsupported ≠ []) ∧
    (((programAction o).execute Program.start).1 = ExitStatus.EXIT_SUCCESS ↔
      o.m_Unsupported = []) ∧
    ((a.execute s).1 = ExitStatus.EXIT_FAILURE ↔
      ∃ u, a = ProgramAction.UnsupportedOptionsAction u) ∧
    (MaybeEitherDemoImplementation s).1 = ExitStatus.EXIT_SUCCESS := by
  have hdel : ∀ (b : ProgramAction) (t : Program), b.deleteThroughBase t = none := by
    intro b t
    cases b <;>
      simp [ProgramAction.deleteThroughBase, ProgramAction.dynamicType,
        ProgramAction.virtualDestructor]
  refine ⟨?_, ?_, hdel a s, ?_, ?_, ?_, rfl⟩
  · simp [main, hdel]
  · simp [main, hdel]
  · obtain ⟨u, h, p, v⟩ := o
    cases u <;> cases h <;> cases p <;> cases v <;>
      simp [programAction, ProgramAction.execute, MaybeEitherDemoImplementation]
  · obtain ⟨u, h, p, v⟩ := o
    cases u <;> cases h <;> cases p <;> cases v <;>
      simp [programAction, ProgramAction.execute, MaybeEitherDemoImplementation]
  · cases a <;> simp [ProgramAction.execute, MaybeEitherDemoImplementation]

/-! ## Identifiers and the static counter -/

theorem writeLoop_length (v : Int) :
    ∀ (fuel i : Nat) (d d2 : List Int), ExpensiveToCopy.writeLoop v fuel i d = some d2 →
      (0 < fuel → i + fuel ≤ d.length) ∧ d2.length = d.length := by
  intro fuel
  induction fuel with
  | zero =>
    intro i d d2 h
    simp [ExpensiveToCopy.writeLoop] at h
    subst h
    exact ⟨fun h0 => absurd h0 (Nat.lt_irrefl 0), rfl⟩
  | succ k ih =>
    intro i d d2 h
    simp only [ExpensiveToCopy.writeLoop] at h
    split at h
    · have := ih (i + 1) (d.set i v) d2 h
      simp only [List.length_set] at this
      refine ⟨fun _ => ?_, this.2⟩
      rcases Nat.eq_zero_or_pos k with hk | hk
      · omega
      · have := this.1 hk
        omega
    · exact absurd h (by simp)

/-- Every copy construction runs out of the bounds of `data`. -/
theorem copyConstruct_undefined (other : ExpensiveToCopy) (s : Program) :
    ExpensiveToCopy.copyConstruct other s = none := by
  unfold ExpensiveToCopy.copyConstruct
  cases h : ExpensiveToCopy.writeLoop 1 1000 0 ExpensiveToCopy.defaultData with
  | none => rfl
  | some d =>
    have := (writeLoop_length 1 1000 0 _ d h).1 (by decide)
    simp [ExpensiveToCopy.defaultData] at this

/-- Copy assignment completes only on an object whose `data` has at least 1000
elements. -/
theorem copyAssign_defined (self other : ExpensiveToCopy) (s : Program)
    (r : ExpensiveToCopy × Program) (h : ExpensiveToCopy.copyAssign self other s = some r) :
    1000 ≤ self.data.length ∧ r.1.id = s.count + 1 ∧ r.2.count = s.count + 1 ∧
      r.2.out = s.out ++ [Event.copyAssigned (s.count + 1)] := by
  unfold ExpensiveToCopy.copyAssign at h
  cases hw : ExpensiveToCopy.writeLoop 2 1000 0 self.data with
  | none => simp [hw] at h
  | some d =>
    have hl := (writeLoop_length 2 1000 0 _ d hw).1 (by decide)
    simp only [hw, Option.some.injEq] at h
    subst h
    exact ⟨by omega, rfl, rfl, rfl⟩

/-- One special member function appends one trace line; either the line assigns
the identifier `count + 1` and the counter becomes `count + 1`, or the line
assigns nothing and the counter is unchanged. -/
theorem exec_step (op : Op) (s1 s2 : Program) (h : op.exec s1 = some s2) :
    ∃ ev : Event, s2.out = s1.out ++ [ev] ∧
      ((ev.assignedId = some (s1.count + 1) ∧ s2.count = s1.count + 1) ∨
        (ev.assignedId = none ∧ s2.count = s1.count)) := by
  cases op with
  | construct =>
    simp only [Op.exec, ExpensiveToCopy.construct, Option.some.injEq] at h
    subst h
    exact ⟨_, rfl, Or.inl ⟨rfl, rfl⟩⟩
  | copyConstruct other =>
    simp [Op.exec, copyConstruct_undefined] at h
  | moveConstruct other =>
    simp only [Op.exec, ExpensiveToCopy.moveConstruct, Option.some.injEq] at h
    subst h
    exact ⟨_, rfl, Or.inl ⟨rfl, rfl⟩⟩
  | copyAssign self other =>
    simp only [Op.exec, Option.map_eq_some'] at h
    obtain ⟨r, hr, rfl⟩ := h
    obtain ⟨_, _, hc, ho⟩ := copyAssign_defined self other s1 r hr
    exact ⟨_, ho, Or.inl ⟨rfl, hc⟩⟩
  | moveAssign self other =>
    simp only [Op.exec, ExpensiveToCopy.moveAssign, Option.some.injEq] at h
    subst h
    exact ⟨_, rfl, Or.inl ⟨rfl, rfl⟩⟩
  | destroy self =>
    simp only [Op.exec, ExpensiveToCopy.destroy, Option.some.injEq] at h
    subst h
    exact ⟨_, rfl, Or.inr ⟨rfl, rfl⟩⟩

/-- The invariant of the bookkeeping: the identifiers assigned so far are
strictly increasing and none exceeds the counter. -/
theorem exec_invariant (op : Op) (s1 s2 : Program) (h : op.exec s1 = some s2)
    (hp : (assignedIds s1.out).Pairwise (· < ·)) (hb : ∀ i ∈ assignedIds s1.out, i ≤ s1.count) :
    (assignedIds s2.out).Pairwise (· < ·) ∧ (∀ i ∈ assignedIds s2.out, i ≤ s2.count) ∧
      s1.count ≤ s2.count := by
  obtain ⟨ev, ho, hev⟩ := exec_step op s1 s2 h
  rcases hev with ⟨ha, hc⟩ | ⟨ha, hc⟩
  · have hids : assignedIds s2.out = assignedIds s1.out ++ [s1.count + 1] := by
      simp [assignedIds, ho, List.filterMap_append, ha]
    rw [hids, hc]
    refine ⟨?_, ?_, Nat.le_succ _⟩
    · rw [List.pairwise_append]
      refine ⟨hp, List.pairwise_singleton _ _, ?_⟩
      intro a ha1 b hb1
      simp only [List.mem_singleton] at hb1
      have := hb a ha1
      omega
    · intro i hi
      simp only [List.mem_append, List.mem_singleton] at hi
      rcases hi with hi | hi
      · have := hb i hi
        omega
      · omega
  · have hids : assignedIds s2.out = assignedIds s1.out := by
      simp [assignedIds, ho, List.filterMap_append, ha]
    rw [hids, hc]
    exact ⟨hp, hb, Nat.le_refl _⟩

theorem runOps_invariant :
    ∀ (ops : List Op) (s1 s2 : Program), runOps ops s1 = some s2 →
      (assignedIds s1.out).Pairwise (· < ·) → (∀ i ∈ assignedIds s1.out, i ≤ s1.count) →
      (assignedIds s2.out).Pairwise (· < ·) ∧ (∀ i ∈ assignedIds s2.out, i ≤ s2.count) ∧
        s1.count ≤ s2.count := by
  intro ops
  induction ops with
  | nil =>
    intro s1 s2 h hp hb
    simp only [runOps, Option.some.injEq] at h
    subst h
    exact ⟨hp, hb, Nat.le_refl _⟩
  | cons op rest ih =>
    intro s1 s2 h hp hb
    simp only [runOps] at h
    cases hm : op.exec s1 with
    | none => simp [hm] at h
    | some sm =>
      simp only [hm, Option.some_bind] at h
      obtain ⟨hp2, hb2, hc2⟩ := exec_invariant op s1 sm hm hp hb
      obtain ⟨hp3, hb3, hc3⟩ := ih sm s2 h hp2 hb2
      exact ⟨hp3, hb3, Nat.le_trans hc2 hc3⟩

theorem runOps_append :
    ∀ (pre post : List Op) (s : Program),
      runOps (pre ++ post) s = (runOps pre s).bind (runOps post) := by
  intro pre
  induction pre with
  | nil => intro post s; rfl
  | cons op rest ih =>
    intro post s
    simp only [List.cons_append, runOps]
    cases op.exec s with
    | none => rfl
    | some sm => simp [ih]

/-- The bookkeeping on runs free of undefined behaviour: in every completed
sequence of uses of the special member functions, run from the start of the
program, the identifiers assigned along the trace are strictly increasing and
none exceeds the counter; and at every position of the sequence the function
used there appends one line, does not decrease the counter, and, if the line
assigns an identifier, assigns the previous count plus one, which is strictly
greater than every identifier assigned before. -/
theorem runOps_ids_increase (ops : List Op) (s : Program)
    (hrun : runOps ops Program.start = some s) (hmax : s.count ≤ INT_MAX) :
    (assignedIds s.out).Pairwise (· < ·) ∧
    (∀ i ∈ assignedIds s.out, i ≤ s.count ∧ i ≤ INT_MAX) ∧
    (∀ (pre : List Op) (op : Op) (post : List Op), ops = pre ++ op :: post →
      ∃ (s1 s2 : Program) (ev : Event),
        runOps pre Program.start = some s1 ∧ op.exec s1 = some s2 ∧
        s2.out = s1.out ++ [ev] ∧ s1.count ≤ s2.count ∧ s2.count ≤ s.count ∧
        (ev.assignedId = none ∨
          (ev.assignedId = some (s1.count + 1) ∧ s2.count = s1.count + 1 ∧
            ∀ i ∈ assignedIds s1.out, i < s1.count + 1))) := by
  have h0p : (assignedIds Program.start.out).Pairwise (· < ·) := by
    simp [assignedIds, Program.start]
  have h0b : ∀ i ∈ assignedIds Program.start.out, i ≤ Program.start.count := by
    simp [assignedIds, Program.start]
  obtain ⟨hp, hb, _⟩ := runOps_invariant ops Program.start s hrun h0p h0b
  refine ⟨hp, fun i hi => ⟨hb i hi, Nat.le_trans (hb i hi) hmax⟩, ?_⟩
  intro pre op post hsplit
  subst hsplit
  rw [runOps_append] at hrun
  cases h1 : runOps pre Program.start with
  | none => simp [h1] at hrun
  | some s1 =>
    simp only [h1, Option.some_bind, runOps] at hrun
    cases h2 : op.exec s1 with
    | none => simp [h2] at hrun
    | some s2 =>
      simp only [h2, Option.some_bind] at hrun
      obtain ⟨hp1, hb1, _⟩ := runOps_invariant pre Program.start s1 h1 h0p h0b
      obtain ⟨hp2, hb2, hc2⟩ := exec_invariant op s1 s2 h2 hp1 hb1
      obtain ⟨_, _, hc3⟩ := runOps_invariant post s2 s hrun hp2 hb2
      obtain ⟨ev, ho, hev⟩ := exec_step op s1 s2 h2
      refine ⟨s1, s2, ev, rfl, h2, ho, hc2, hc3, ?_⟩
      rcases hev with ⟨ha, hc⟩ | ⟨ha, _⟩
      · exact Or.inr ⟨ha, hc, fun i hi => Nat.lt_succ_of_le (hb1 i hi)⟩
      · exact Or.inl ha

/-- An instance of the bookkeeping lemma: a default construction, a move
construction from the new instance, its destruction, and a move assignment to
the second instance. -/
theorem runOps_ids_increase_example :
    (assignedIds [Event.constructed 1, Event.moved 2, Event.destroyed 1,
      Event.moveAssigned 3]).Pairwise (· < ·) ∧
    (∀ i ∈ assignedIds [Event.constructed 1, Event.moved 2, Event.destroyed 1,
      Event.moveAssigned 3], i ≤ 3 ∧ i ≤ INT_MAX) :=
  ⟨(runOps_ids_increase
      [Op.construct, Op.moveConstruct (ExpensiveToCopy.mk 1 ExpensiveToCopy.defaultData),
        Op.destroy (ExpensiveToCopy.mk 1 ExpensiveToCopy.defaultData),
        Op.moveAssign (ExpensiveToCopy.mk 2 ExpensiveToCopy.defaultData)
          (ExpensiveToCopy.mk 1 ExpensiveToCopy.defaultData)]
      (Program.mk 3 [Event.constructed 1, Event.moved 2, Event.destroyed 1,
        Event.moveAssigned 3]) rfl (by decide)).1,
   (runOps_ids_increase
      [Op.construct, Op.moveConstruct (ExpensiveToCopy.mk 1 ExpensiveToCopy.defaultData),
        Op.destroy (ExpensiveToCopy.mk 1 ExpensiveToCopy.defaultData),
        Op.moveAssign (ExpensiveToCopy.mk 2 ExpensiveToCopy.defaultData)
          (ExpensiveToCopy.mk 1 ExpensiveToCopy.defaultData)]
      (Program.mk 3 [Event.constructed 1, Event.moved 2, Event.destroyed 1,
        Event.moveAssigned 3]) rfl (by decide)).2.1⟩

/-- C23: from a state whose counter has room for two more instances,
`create_expensive_m(success)` is present exactly when `success` is true, and
then holds the newly move-constructed instance, and is absent otherwise;
`create_expensive_e(success)` is a success exactly when `success` is true and
otherwise the failure built from `FailedToCreate`, whose message is
"Failed to create 'ExpensiveToCopy'". -/
theorem factory_contract (success : Bool) (s : Program) (h : s.count + 2 ≤ INT_MAX) :
    (Maybe.has_value (create_expensive_m success s).1 = true ↔ success = true) ∧
    ((create_expensive_m success s).1 = Maybe.nullopt ↔ success = false) ∧
    create_expensive_m true s
      = (Maybe.of { id := s.count + 2, data := ExpensiveToCopy.defaultData },
          { count := s.count + 2, out := s.out ++ [Event.constructed (s.count + 1),
              Event.moved (s.count + 2), Event.destroyed (s.count + 1)] }) ∧
    create_expensive_m false s = (Maybe.nullopt, s) ∧
    (visit IsRight (create_expensive_e success s).1 = true ↔ success = true) ∧
    create_expensive_e true s
      = (Either.ofValue { id := s.count + 2, data := ExpensiveToCopy.defaultData },
          { count := s.count + 2, out := s.out ++ [Event.constructed (s.count + 1),
              Event.moved (s.count + 2), Event.destroyed (s.count + 1)] }) ∧
    create_expensive_e false s = (Either.ofObject (Marker.construct Marker.FailedToCreate), s) ∧
    (Either.getErr (create_expensive_e false s).1).map Err.what
      = .ok "Failed to create 'ExpensiveToCopy'" ∧
    (create_expensive_m success s).2.count ≤ INT_MAX ∧
    (create_expensive_e success s).2.count ≤ INT_MAX := by
  have hm : create_expensive_m true s
      = (Maybe.of { id := s.count + 2, data := ExpensiveToCopy.defaultData },
          { count := s.count + 2, out := s.out ++ [Event.constructed (s.count + 1),
              Event.moved (s.count + 2), Event.destroyed (s.count + 1)] }) := by
    simp [create_expensive_m, ExpensiveToCopy.construct, ExpensiveToCopy.moveConstruct,
      ExpensiveToCopy.destroy]
  have he : create_expensive_e true s
      = (Either.ofValue { id := s.count + 2, data := ExpensiveToCopy.defaultData },
          { count := s.count + 2, out := s.out ++ [Event.constructed (s.count + 1),
              Event.moved (s.count + 2), Event.destroyed (s.count + 1)] }) := by
    simp [create_expensive_e, ExpensiveToCopy.construct, ExpensiveToCopy.moveConstruct,
      ExpensiveToCopy.destroy]
  have h2 : s.count ≤ INT_MAX := by omega
  cases success
  · refine ⟨?_, ?_, hm, rfl, ?_, he, rfl, rfl, h2, h2⟩ <;>
      simp [create_expensive_m, create_expensive_e, Maybe.has_value, Maybe.nullopt, visit,
        IsRight, Either.ofObject]
  · refine ⟨?_, ?_, hm, rfl, ?_, he, rfl, rfl, ?_, ?_⟩
    · rw [hm]; simp [Maybe.has_value, Maybe.of]
    · rw [hm]; simp [Maybe.nullopt, Maybe.of]
    · rw [he]; simp [visit, IsRight, Either.ofValue]
    · rw [hm]; exact h
    · rw [he]; exact h

/-- Witness of C23 at the start of the program. -/
theorem factory_contract_witness :
    create_expensive_m true Program.start
      = (Maybe.of { id := Program.start.count + 2, data := ExpensiveToCopy.defaultData },
          { count := Program.start.count + 2,
            out := Program.start.out ++ [Event.constructed (Program.start.count + 1),
              Event.moved (Program.start.count + 2),
              Event.destroyed (Program.start.count + 1)] }) :=
  (factory_contract true Program.start (by decide)).2.2.1

/-- C24, on the code: the move constructor increments the static counter. In
every state, move-constructing an instance leaves `count` one higher than
before, never unchanged; at the start of the program
`create_expensive_m(true)` leaves `count` at 2 after one default construction
and one move, and the moved instance is printed as number 2. -/
theorem move_constructor_increments_count (other : ExpensiveToCopy) (s : Program) :
    (ExpensiveToCopy.moveConstruct other s).2.count = s.count + 1 ∧
    (ExpensiveToCopy.moveConstruct other s).2.count ≠ s.count ∧
    (ExpensiveToCopy.moveConstruct
        (ExpensiveToCopy.construct Program.start).1
        (ExpensiveToCopy.construct Program.start).2).2
      = { count := 2, out := [Event.constructed 1, Event.moved 2] } ∧
    (create_expensive_m true Program.start).2.count = 2 := by
  refine ⟨rfl, ?_, by decide, by decide⟩
  simp [ExpensiveToCopy.moveConstruct]

/-- C30, on the code: `data` has the two elements 1000 and 0 in every instance
the constructors produce, index 2 is already outside its bounds, and the loops
over the indices 0 to 999 of the copy constructor and of the copy assignment
run into an out-of-bounds access whatever the state and the objects are. -/
theorem expensive_data_out_of_bounds (other : ExpensiveToCopy) (s s2 : Program) :
    ExpensiveToCopy.defaultData.length = 2 ∧
    (ExpensiveToCopy.construct s).1.data.length = 2 ∧
    (ExpensiveToCopy.moveConstruct other s).1.data.length = 2 ∧
    ¬ (1000 ≤ (ExpensiveToCopy.construct s).1.data.length) ∧
    ExpensiveToCopy.writeLoop 1 1000 0 (ExpensiveToCopy.construct s).1.data = none ∧
    ExpensiveToCopy.copyConstruct other s = none ∧
    ExpensiveToCopy.copyAssign (ExpensiveToCopy.construct s).1 other s2 = none ∧
    ExpensiveToCopy.copyAssign (ExpensiveToCopy.moveConstruct other s).1 other s2 = none := by
  have w1 : ExpensiveToCopy.writeLoop 1 1000 0 ExpensiveToCopy.defaultData = none := by decide
  have w2 : ExpensiveToCopy.writeLoop 2 1000 0 ExpensiveToCopy.defaultData = none := by decide
  refine ⟨rfl, rfl, rfl, ?_, w1, copyConstruct_undefined other s, ?_, ?_⟩
  · simp [ExpensiveToCopy.construct, ExpensiveToCopy.defaultData]
  · simp [ExpensiveToCopy.copyAssign, ExpensiveToCopy.construct, w2]
  · simp [ExpensiveToCopy.copyAssign, ExpensiveToCopy.moveConstruct, w2]

/-! ## The test pipeline on every input -/

/-- C25: for every `int` `a`, the chain `success(a) | multiplyOne | modulo |
squareRoot` is a failure exactly when `a` is 0, and then it is the record built
from `DivisionByZeroErr` with message "Division by zero"; for every other `a`,
negative ones included, it is the success holding the square root of the
truncating remainder of 42 by `a`, which is never negative, so the record of
`SqrtNegativeErr` is never the result; and whenever `a` divides 42, as 42 and
-42 do, the result is the success holding the square root of 0, that is `0.0`
given that the square root of `0.0` is `0.0`. -/
theorem either_pipeline_all {σ F : Type} (ops : FloatOps F) (zero : F)
    (h0 : ops.sqrt (ops.ofInt 0) = zero) (a : Int) (s : σ) :
    (visit IsLeft (EitherTest.PipeOperator ops a s).1 = true ↔ a = 0) ∧
    EitherTest.PipeOperator ops 0 s = (Either.ofErr EitherTest.DivisionByZeroErr, s) ∧
    (Either.getErr (EitherTest.PipeOperator ops 0 s).1).map Err.what
      = .ok "Division by zero" ∧
    (a ≠ 0 → EitherTest.PipeOperator ops a s
      = (Either.ofValue (ops.sqrt (ops.ofInt (Int.tmod 42 a))), s)) ∧
    0 ≤ Int.tmod 42 a ∧
    (EitherTest.PipeOperator ops a s).1 ≠ Either.ofErr EitherTest.SqrtNegativeErr ∧
    (a ≠ 0 → a ∣ 42 → EitherTest.PipeOperator ops a s = (Either.ofValue zero, s)) ∧
    EitherTest.PipeOperator ops 42 s = (Either.ofValue zero, s) ∧
    EitherTest.PipeOperator ops (-42) s = (Either.ofValue zero, s) := by
  have hnn : ∀ b : Int, 0 ≤ Int.tmod 42 b := fun b => Int.tmod_nonneg b (by decide)
  have hz : EitherTest.PipeOperator ops 0 s
      = (Either.ofErr EitherTest.DivisionByZeroErr, s) := by
    simp [EitherTest.PipeOperator, Either.pipe3, Either.pipe, Either.mbind, Either.ofValue,
      Either.ofErr, pureFn, EitherTest.multiplyOne, EitherTest.modulo]
  have hne : ∀ b : Int, b ≠ 0 → EitherTest.PipeOperator ops b s
      = (Either.ofValue (ops.sqrt (ops.ofInt (Int.tmod 42 b))), s) := by
    intro b hb
    have hb2 : ¬ (0 = b) := fun h => hb h.symm
    have hlt : ¬ (Int.tmod 42 b < 0) := not_lt.mpr (hnn b)
    simp [EitherTest.PipeOperator, Either.pipe3, Either.pipe, Either.mbind, Either.ofValue,
      pureFn, EitherTest.multiplyOne, EitherTest.modulo, EitherTest.squareRoot, hb2, hlt]
  have hdvd : ∀ b : Int, b ≠ 0 → b ∣ 42 →
      EitherTest.PipeOperator ops b s = (Either.ofValue zero, s) := by
    intro b hb hd
    rw [hne b hb, Int.tmod_eq_zero_of_dvd hd, h0]
  refine ⟨?_, hz, ?_, hne a, hnn a, ?_, hdvd a, ?_, ?_⟩
  · by_cases ha : a = 0
    · subst ha
      rw [hz]
      simp [visit, IsLeft, Either.ofErr]
    · rw [hne a ha]
      simp [visit, IsLeft, Either.ofValue, ha]
  · rw [hz]
    rfl
  · by_cases ha : a = 0
    · subst ha
      rw [hz]
      simp [Either.ofErr, EitherTest.DivisionByZeroErr, EitherTest.SqrtNegativeErr]
    · rw [hne a ha]
      simp [Either.ofValue, Either.ofErr]
  · exact hdvd 42 (by decide) (by decide)
  · exact hdvd (-42) (by decide) (by decide)

/-- Witness of C25 with the integer square root on the natural numbers in place
of the `float` square root, on the inputs 42 and 7. -/
theorem either_pipeline_all_witness :
    EitherTest.PipeOperator { ofInt := Int.toNat, sqrt := Nat.sqrt } 42 ()
      = (Either.ofValue 0, ()) ∧
    EitherTest.PipeOperator { ofInt := Int.toNat, sqrt := Nat.sqrt } 7 ()
      = (Either.ofValue 0, ()) :=
  ⟨(either_pipeline_all { ofInt := Int.toNat, sqrt := Nat.sqrt } 0 (by decide) 42 ()).2.2.2.2.2.2.2.1,
   (either_pipeline_all { ofInt := Int.toNat, sqrt := Nat.sqrt } 0 (by decide) 7 ()).2.2.2.2.2.2.1
     (by decide) (by decide)⟩

/-! ## Monad laws -/

/-- C26: for every `Maybe<int>` `m`, `mbind(m, multiplyOne)` is `m` itself, a
present value staying the same present value and absent staying absent; and
for every payload type, binding with the step that only wraps its argument as
present returns the source unchanged, the program state included. -/
theorem maybe_right_identity {σ T : Type} (m : Maybe Int) (v : Int) (c : Maybe T) (s : σ) :
    Maybe.mbind m (pureFn MaybeTest.multiplyOne) s = (m, s) ∧
    Maybe.mbind (Maybe.of v) (pureFn MaybeTest.multiplyOne) s = (Maybe.of v, s) ∧
    Maybe.mbind (Maybe.nullopt : Maybe Int) (pureFn MaybeTest.multiplyOne) s
      = (Maybe.nullopt, s) ∧
    Maybe.mbind c (pureFn Maybe.of) s = (c, s) := by
  refine ⟨?_, ?_, rfl, ?_⟩
  · cases m <;> simp [Maybe.mbind, pureFn, MaybeTest.multiplyOne, Maybe.of]
  · simp [Maybe.mbind, pureFn, MaybeTest.multiplyOne, Maybe.of]
  · cases c <;> simp [Maybe.mbind, pureFn, Maybe.of]

/-- C27: for every `Either<int>` `e`, `mbind(e, multiplyOne)` is `e` itself: a
success keeps its value, a failure keeps its error record and so its message;
and for every payload type, binding with the step that wraps its argument as a
success returns the source unchanged, the program state included. -/
theorem either_right_identity {σ T : Type} (e : Either Int) (v : Int) (err : Err)
    (c : Either T) (s : σ) :
    Either.mbind e (pureFn EitherTest.multiplyOne) s = (e, s) ∧
    Either.mbind (Either.ofValue v) (pureFn EitherTest.multiplyOne) s
      = (Either.ofValue v, s) ∧
    Either.mbind (Either.ofErr err) (pureFn EitherTest.multiplyOne) s
      = (Either.ofErr err, s) ∧
    (Either.getErr (Either.mbind (Either.ofErr err) (pureFn EitherTest.multiplyOne) s).1).map
        Err.what = .ok err.what ∧
    Either.mbind c (pureFn Either.ofValue) s = (c, s) := by
  refine ⟨?_, ?_, rfl, rfl, ?_⟩
  · cases e <;> simp [Either.mbind, pureFn, EitherTest.multiplyOne, Either.ofValue]
  · simp [Either.mbind, pureFn, EitherTest.multiplyOne, Either.ofValue]
  · cases c <;> simp [Either.mbind, pureFn, Either.ofValue]

/-- C28: for every `Maybe` `m` and steps `f` and `g`, binding `m` with `f` and
the result with `g` gives the same result and the same final state as binding
`m` with the step that sends `x` to `mbind(f(x), g)`; hence the chain
`m | f | g` is the same however its steps are grouped. -/
theorem maybe_mbind_assoc {σ T U V : Type} (m : Maybe T) (f : Fn σ T (Maybe U))
    (g : Fn σ U (Maybe V)) (s : σ) :
    Maybe.mbind (Maybe.mbind m f s).1 g (Maybe.mbind m f s).2
      = Maybe.mbind m (fun x t => Maybe.mbind (f x t).1 g (f x t).2) s ∧
    Maybe.pipe2 m f g s = Maybe.pipe m (fun x t => Maybe.pipe (f x t).1 g (f x t).2) s := by
  cases m <;> exact ⟨rfl, rfl⟩

/-- C29: for every `Either` `e` and steps `f` and `g`, binding `e` with `f` and
the result with `g` gives the same result, the error record carried on a
failure of `e`, `f` or `g` included, and the same final state as binding `e`
with the step that sends `x` to `mbind(f(x), g)`. -/
theorem either_mbind_assoc {σ T U V : Type} (e : Either T) (f : Fn σ T (Either U))
    (g : Fn σ U (Either V)) (s : σ) (err : Err) :
    Either.mbind (Either.mbind e f s).1 g (Either.mbind e f s).2
      = Either.mbind e (fun x t => Either.mbind (f x t).1 g (f x t).2) s ∧
    Either.pipe2 e f g s = Either.pipe e (fun x t => Either.pipe (f x t).1 g (f x t).2) s ∧
    Either.mbind (Either.mbind (Either.ofErr err) f s).1 g (Either.mbind (Either.ofErr err) f s).2
      = (Either.ofErr err, s) ∧
    Either.mbind (Either.ofErr err) (fun x t => Either.mbind (f x t).1 g (f x t).2) s
      = (Either.ofErr err, s) := by
  cases e <;> exact ⟨rfl, rfl, rfl, rfl⟩

end MonadicTypes
